import Mathlib

/-!
# Verification of the raycastextension window/desktop mover commands

This file is a shallow embedding of the Raycast commands found in the
repository (src/move-to-display.tsx and the desktop-mover variants in the
corpus).  Every command is an async TypeScript function of the shape
"parse and validate the numeric argument, optionally close the Raycast
main window, run a fixed AppleScript/JXA automation script with the
target index interpolated, string-match the automation's result, and
show a toast".  We model a run of a command as the list of observable
effects it performs (toasts shown, Raycast main window closed, the
automation script executed, temp files written/removed, console.error
lines), parameterised by the outcome of the external automation call
(a returned string, or a thrown exception carrying an error message).

JavaScript primitives used by the commands (parseInt with radix 10,
String.prototype.trim/includes/startsWith/split/replace/toLowerCase,
template-literal number interpolation, `x || d` defaulting) are modelled
executably below.  Numbers are modelled as exact integers: the commands
only interpolate and compare the parsed argument, and no claim depends
on IEEE-754 precision loss for huge inputs.  The whitespace class of
parseInt/trim is restricted to the common ASCII whitespace plus NBSP.
-/

/-- The whitespace characters skipped by JavaScript `parseInt`/`trim`
(ASCII whitespace and no-break space). -/
def jsWhitespaceChar (c : Char) : Bool :=
  c = ' ' || c = '\t' || c = '\n' || c = '\r' || c = '\x0b' || c = '\x0c' || c = '\xa0'

/-- Value of a maximal decimal-digit prefix, most significant digit first. -/
def digitsVal (ds : List Char) : Nat :=
  ds.foldl (fun a c => 10 * a + (c.toNat - 48)) 0

/-- JavaScript `parseInt(s, 10)`:  skip leading whitespace, read an optional
sign, then the maximal run of decimal digits; `none` models `NaN` (no digit
found).  Used verbatim by every command's validation step. -/
def jsParseInt (s : String) : Option Int :=
  let cs := s.data.dropWhile jsWhitespaceChar
  match cs with
  | '-' :: rest =>
      let ds := rest.takeWhile Char.isDigit
      if ds.isEmpty then none else some (-(digitsVal ds : Int))
  | '+' :: rest =>
      let ds := rest.takeWhile Char.isDigit
      if ds.isEmpty then none else some ((digitsVal ds : Int))
  | _ =>
      let ds := cs.takeWhile Char.isDigit
      if ds.isEmpty then none else some ((digitsVal ds : Int))

/-- The decimal digit characters. -/
def digitChar (d : Nat) : Char :=
  match d with
  | 0 => '0' | 1 => '1' | 2 => '2' | 3 => '3' | 4 => '4'
  | 5 => '5' | 6 => '6' | 7 => '7' | 8 => '8' | _ => '9'

/-- Decimal digits of `n`, least significant first (`fuel`-bounded recursion
so that the kernel can evaluate it; `fuel = n` always suffices). -/
def natRevDigits (fuel n : Nat) : List Char :=
  match fuel with
  | 0 => []
  | fuel' + 1 => if n = 0 then [] else digitChar (n % 10) :: natRevDigits fuel' (n / 10)

/-- Decimal rendering of a natural number. -/
def natStr (n : Nat) : String :=
  if n = 0 then "0" else String.mk (natRevDigits n n).reverse

/-- Decimal rendering of an integer: the text produced by interpolating the
validated (safe-range) number into a JS template literal. -/
def numStr (n : Int) : String :=
  if n < 0 then "-" ++ natStr n.natAbs else natStr n.natAbs

/-- JavaScript `String.prototype.trim()` (applied by the commands to the
output of `execSync`/`execFileSync`). -/
def jsTrim (s : String) : String :=
  String.mk (((s.data.dropWhile jsWhitespaceChar).reverse.dropWhile jsWhitespaceChar).reverse)

/-- JavaScript `String.prototype.toLowerCase()` (ASCII). -/
def jsToLower (s : String) : String := String.mk (s.data.map Char.toLower)

/-- Whether `pat` occurs as a contiguous subsequence of `hay`. -/
def csContains (hay pat : List Char) : Bool :=
  match hay with
  | [] => pat.isEmpty
  | _ :: rest => pat.isPrefixOf hay || csContains rest pat

/-- JavaScript `hay.includes(pat)`. -/
def strContains (hay pat : String) : Bool := csContains hay.data pat.data

/-- JavaScript `s.startsWith(pre)`. -/
def strStartsWith (s pre : String) : Bool := pre.data.isPrefixOf s.data

/-- Worker for `jsSplitOnChar`: `acc` is the reversed current chunk. -/
def jsSplitAux (sep : Char) : List Char → List Char → List (List Char)
  | [], acc => [acc.reverse]
  | c :: rest, acc =>
      if c = sep then acc.reverse :: jsSplitAux sep rest []
      else jsSplitAux sep rest (c :: acc)

/-- JavaScript `s.split(sep)` for a one-character separator (the commands
only ever split on `"|"`). -/
def jsSplitOnChar (sep : Char) (s : String) : List String :=
  (jsSplitAux sep s.data []).map String.mk

/-- Worker for `jsReplaceFirst`. -/
def listReplaceFirst : List Char → List Char → List Char → List Char
  | [], pat, rep => if pat.isEmpty then rep else []
  | c :: rest, pat, rep =>
      if pat.isPrefixOf (c :: rest) then rep ++ (c :: rest).drop pat.length
      else c :: listReplaceFirst rest pat rep

/-- JavaScript `s.replace(pat, rep)` with a string pattern: replaces the
first occurrence only. -/
def jsReplaceFirst (s pat rep : String) : String :=
  String.mk (listReplaceFirst s.data pat.data rep.data)

/-- JavaScript `x || d` for `x : string | undefined`: `undefined` and the
empty string are falsy. -/
def jsOrElse (o : Option String) (d : String) : String :=
  match o with
  | none => d
  | some s => if s = "" then d else s

/-- The three toast styles used by the commands
(`Toast.Style.Success/Failure/Animated`). -/
inductive ToastStyle where
  | success
  | failure
  | animated
  deriving DecidableEq, Repr

/-- An observable effect of one command run. -/
inductive Event where
  /-- A `showToast({style, title, message})` call. -/
  | toast (style : ToastStyle) (title : String) (message : String)
  /-- A `closeMainWindow()` call. -/
  | closeMain
  /-- The automation script handed to `runAppleScript` / `osascript`
  (for the JXA variant: the script executed from the temp file). -/
  | runScript (script : String)
  /-- A `writeFileSync(path, content)` call for the JXA temp file. -/
  | writeTmpFile (path : String) (content : String)
  /-- The `unlinkSync(path)` attempt in the JXA variant's `finally` block;
  `ok` records whether the deletion itself succeeded (its failure is
  swallowed by the surrounding try/catch). -/
  | unlinkTmpFile (path : String) (ok : Bool)
  /-- A `console.error` line. -/
  | consoleError (line : String)
  deriving DecidableEq, Repr

/-- Outcome of the external automation call: the string it returned, or the
message of the `Error` it threw (`execSync`/`runAppleScript` reject with
`Error` objects, so `error instanceof Error` is true in the catch blocks). -/
inductive AutoOutcome where
  | ret (raw : String)
  | thrown (message : String)
  deriving DecidableEq, Repr

/-- Shorthand for a Failure toast event. -/
def failureToast (title msg : String) : Event := .toast .failure title msg

/-- Shorthand for a Success toast event. -/
def successToast (title msg : String) : Event := .toast .success title msg

/-- Shorthand for an Animated (loading) toast event. -/
def animatedToast (title msg : String) : Event := .toast .animated title msg

/-- The toast every command shows when the display-number argument fails
validation (src/move-to-display.tsx lines 16-23). -/
def invalidDisplayToast : Event :=
  failureToast "Invalid Display Number" "Please enter a valid display number (1, 2, 3, etc.)"

/-- The toast every desktop-mover variant shows when the desktop-number
argument fails validation. -/
def invalidDesktopToast : Event :=
  failureToast "Invalid Desktop Number" "Please enter a valid desktop number (1, 2, 3, etc.)"
/-- Verbatim text of the template literal at src/move-to-display.tsx lines 33-100. -/
def displayScript (n : Int) : String :=
  "
      use framework \"Foundation\"
      use framework \"AppKit\"
      use scripting additions

      -- Get all screens
      set allScreens to current application\x27s NSScreen\x27s screens()
      set screenCount to count of allScreens

      -- Validate display number
      if " ++ numStr n ++ " > screenCount then
        return \"ERROR|Display " ++ numStr n ++ " not found. Available displays: 1 to \" & screenCount
      end if

      -- Get target screen (0-indexed in Cocoa, so subtract 1)
      set targetScreen to item " ++ numStr n ++ " of allScreens
      set targetFrame to targetScreen\x27s frame()
      set targetX to (item 1 of item 1 of targetFrame) as integer
      set targetY to (item 2 of item 1 of targetFrame) as integer
      set targetWidth to (item 1 of item 2 of targetFrame) as integer
      set targetHeight to (item 2 of item 2 of targetFrame) as integer

      -- Get frontmost application and window
      tell application \"System Events\"
        set frontApp to name of first application process whose frontmost is true

        tell process frontApp
          if (count of windows) = 0 then
            return \"ERROR|No active window found in \" & frontApp
          end if

          -- Get current window bounds
          try
            set currentPos to position of window 1
            set currentSize to size of window 1
            set windowWidth to item 1 of currentSize
            set windowHeight to item 2 of currentSize

            -- Calculate new position
            -- Place window with some offset from top-left of target display
            set offsetX to 100
            set offsetY to 100

            -- Ensure window fits on screen
            if windowWidth > (targetWidth - offsetX) then
              set offsetX to 50
            end if

            if windowHeight > (targetHeight - offsetY) then
              set offsetY to 50
            end if

            -- Calculate new position
            -- Note: macOS coordinate system has origin at bottom-left
            -- NSScreen gives us the frame, but we need to adjust for menu bar
            set newX to targetX + offsetX
            set newY to targetY + offsetY

            -- Move window to new display
            set position of window 1 to \x7bnewX, newY\x7d

            return \"SUCCESS|Window moved to Display " ++ numStr n ++ "\"
          on error errMsg
            return \"ERROR|Failed to move window: \" & errMsg
          end try
        end tell
      end tell
    "

/-- Verbatim text of the template literal at src/unnamed/part_000 lines 45-116. -/
def menuFallbackScript (n : Int) : String :=
  "
      use framework \"Foundation\"
      use scripting additions

      tell application \"System Events\"
        -- Get frontmost application
        set frontApp to name of first application process whose frontmost is true

        tell process frontApp
          if (count of windows) = 0 then
            return \"Error: No active window found\"
          end if

          -- Get the frontmost window
          set theWindow to window 1

          -- Try to move window to desktop using Window menu
          try
            -- Click on Window menu if it exists
            tell menu bar 1
              try
                set windowMenu to menu \"Window\" of menu bar item \"Window\"
              on error
                return \"Error: This application does not support moving windows to desktops via Window menu\"
              end try

              try
                -- Look for \"Move to\" submenu
                set moveToMenu to menu \"Move to\" of menu item \"Move to\" of windowMenu

                -- Get all menu items (desktops)
                set desktopMenuItems to menu items of moveToMenu

                -- Check if desktop exists
                if " ++ numStr n ++ " > (count of desktopMenuItems) then
                  return \"Error: Desktop " ++ numStr n ++ " not found. Available desktops: 1 to \" & (count of desktopMenuItems)
                end if

                -- Click on the target desktop
                click menu item " ++ numStr n ++ " of moveToMenu

                return \"Success: Window moved to Desktop " ++ numStr n ++ "\"
              on error errMsg
                return \"Error: Could not access Move to menu - \" & errMsg
              end try
            end tell
          on error errMsg
            -- If Window menu approach fails, try keyboard shortcut approach
            try
              -- Activate the window first
              set frontmost to true

              -- Use Control+Number to switch to desktop and bring window
              -- This requires \"Displays have separate Spaces\" to be disabled
              -- and keyboard shortcuts to be enabled in System Preferences

              -- First, we\x27ll try using Mission Control shortcuts
              tell application \"System Events\"
                -- Press Control+Desktop Number to move to that desktop with the window
                key code (18 + " ++ numStr (n - 1) ++ ") using control down
              end tell

              delay 0.3

              return \"Success: Switched to Desktop " ++ numStr n ++ " with window\"
            on error errMsg2
              return \"Error: Unable to move window. Please enable Mission Control keyboard shortcuts in System Preferences → Keyboard → Shortcuts → Mission Control. Error: \" & errMsg2
            end try
          end try
        end tell
      end tell
    "

/-- Verbatim text of the template literal at src/unnamed/part_000 lines 177-218. -/
def keysScript (n : Int) : String :=
  "
tell application \"System Events\"
    -- Get frontmost application and window
    set frontApp to first application process whose frontmost is true
    set appName to name of frontApp

    -- Check for window
    if (count of windows of frontApp) = 0 then
        return \"error:no_window\"
    end if

    set targetDesktop to " ++ numStr n ++ "

    -- Make sure the app is frontmost
    tell process appName
        set frontmost to true
    end tell

    delay 0.2

    -- Use keyboard shortcut: Control + Option + Desktop Number
    -- This requires \"Move window to Desktop X\" to be enabled in:
    -- System Settings → Keyboard → Keyboard Shortcuts → Mission Control

    -- Key codes for numbers: 1=18, 2=19, 3=20, 4=21, 5=23, 6=22, 7=26, 8=28, 9=25
    set keyCodes to \x7b18, 19, 20, 21, 23, 22, 26, 28, 25\x7d

    if targetDesktop ≥ 1 and targetDesktop ≤ 9 then
        set theKeyCode to item targetDesktop of keyCodes

        -- Press Control + Option + Number to move window
        tell application \"System Events\"
            key code theKeyCode using \x7bcontrol down, option down\x7d
        end tell

        delay 0.3
        return \"success\"
    else
        return \"error:invalid_desktop\"
    end if
end tell
"

/-- Verbatim text of the template literal at src/unnamed/part_001 lines 35-91. -/
def menuSimpleScript (n : Int) : String :=
  "
tell application \"System Events\"
    -- Get frontmost application
    set frontApp to first application process whose frontmost is true
    set appName to name of frontApp

    -- Check for window
    if (count of windows of frontApp) = 0 then
        return \"error:no_window\"
    end if

    set targetDesktop to " ++ numStr n ++ "

    -- Try Window menu approach
    tell process appName
        if exists menu bar item \"Window\" of menu bar 1 then
            click menu bar item \"Window\" of menu bar 1
            delay 0.4

            -- Look for direct menu item
            set menuItemFound to false
            set theMenu to menu \"Window\" of menu bar item \"Window\" of menu bar 1

            -- Try exact match first
            repeat with menuItemName in \x7b\"Move to Desktop \" & targetDesktop, \"Desktop \" & targetDesktop\x7d
                if exists menu item menuItemName of theMenu then
                    click menu item menuItemName of theMenu
                    return \"success\"
                end if
            end repeat

            -- Look for \"Move to\" submenu
            if exists menu item \"Move to\" of theMenu then
                click menu item \"Move to\" of theMenu
                delay 0.3

                -- Try to click on the desktop item in submenu
                try
                    click menu item (\"Desktop \" & targetDesktop) of menu 1 of menu item \"Move to\" of theMenu
                    return \"success\"
                on error
                    try
                        click menu item (targetDesktop as string) of menu 1 of menu item \"Move to\" of theMenu
                        return \"success\"
                    end try
                end try
            end if

            -- Menu items not found, close menu
            key code 53
            return \"error:menu_not_found\"
        else
            return \"error:no_menu\"
        end if
    end tell
end tell
"

/-- Verbatim text of the template literal at src/unnamed/part_001 lines 189-254. -/
def relativeScript (n : Int) : String :=
  "
tell application \"System Events\"
    -- Get frontmost application
    set frontApp to first application process whose frontmost is true
    set appName to name of frontApp

    -- Check for window
    if (count of windows of frontApp) = 0 then
        return \"error:no_window\"
    end if

    set targetDesktop to " ++ numStr n ++ "

    -- Get current desktop/space number using Mission Control
    tell application \"System Events\"
        tell process \"ControlCenter\"
            -- This will give us the current space
        end tell
    end tell

    -- Use a simple approach: Get current space from do shell script
    try
        set currentSpace to do shell script \"python3 -c \\\"
\x69mport Quartz
activeSpace = Quartz.CGSGetActiveSpace(Quartz.CGSMainConnectionID())
spaces = Quartz.CGSCopySpacesForWindows(Quartz.CGSMainConnectionID(), 0xFFFF)
spaceIndex = 1
for i, space in enumerate(spaces):
    if space == activeSpace:
        spaceIndex = i + 1
        break
print(spaceIndex)
\\\"\"
        set currentDesktopNum to currentSpace as integer
    on error
        -- If we can\x27t get current desktop, assume we\x27re on desktop 1
        set currentDesktopNum to 1
    end try

    -- Calculate how many times to move
    set moveCount to targetDesktop - currentDesktopNum

    -- Make sure app is frontmost
    tell process appName
        set frontmost to true
    end tell
    delay 0.2

    -- Move window left or right based on direction
    if moveCount > 0 then
        -- Move right
        repeat moveCount times
            key code 124 using \x7bcontrol down, shift down\x7d -- Right arrow
            delay 0.2
        end repeat
    else if moveCount < 0 then
        -- Move left
        repeat (-moveCount) times
            key code 123 using \x7bcontrol down, shift down\x7d -- Left arrow
            delay 0.2
        end repeat
    end if

    return \"success\"
end tell
"

/-- Verbatim text of the template literal at src/unnamed/part_002 lines 36-100. -/
def windowMenuScript (n : Int) : String :=
  "
tell application \"System Events\"
    -- Get frontmost application and window
    set frontApp to first application process whose frontmost is true
    set appName to name of frontApp

    -- Check for window
    if (count of windows of frontApp) = 0 then
        return \"error:no_window\"
    end if

    set targetDesktop to " ++ numStr n ++ "

    -- Use Window menu to move to desktop
    tell process appName
        set frontmost to true
        delay 0.1

        -- Check if Window menu exists
        if not (exists menu bar item \"Window\" of menu bar 1) then
            return \"error:no_window_menu\"
        end if

        -- Open Window menu
        click menu bar item \"Window\" of menu bar 1
        delay 0.3

        set theMenu to menu \"Window\" of menu bar item \"Window\" of menu bar 1

        -- Try different menu item patterns (varies by macOS version)
        -- Sonoma/Sequoia: \"Move Window to Desktop X\"
        -- Earlier: \"Desktop X\" directly or under \"Move to\" submenu

        if exists menu item (\"Move Window to Desktop \" & targetDesktop) of theMenu then
            click menu item (\"Move Window to Desktop \" & targetDesktop) of theMenu
            return \"success\"
        end if

        -- Check for \"Move to\" submenu
        if exists menu item \"Move to\" of theMenu then
            click menu item \"Move to\" of theMenu
            delay 0.25

            set subMenu to menu 1 of menu item \"Move to\" of theMenu

            -- Try different naming patterns
            if exists menu item (\"Desktop \" & targetDesktop) of subMenu then
                click menu item (\"Desktop \" & targetDesktop) of subMenu
                return \"success\"
            else if exists menu item (targetDesktop as string) of subMenu then
                click menu item (targetDesktop as string) of subMenu
                return \"success\"
            end if

            -- Close submenu if desktop not found
            key code 53
            return \"error:desktop_not_in_menu\"
        end if

        -- Close menu if no \"Move to\" option
        key code 53
        return \"error:no_move_option\"
    end tell
end tell
"

/-- Verbatim text of the template literal at src/unnamed/part_003 lines 36-104. -/
def dockScript (n : Int) : String :=
  "
tell application \"System Events\"
    -- Get frontmost application
    set frontApp to first application process whose frontmost is true
    set appName to name of frontApp

    -- Check for window
    if (count of windows of frontApp) = 0 then
        return \"error:no_window\"
    end if

    set targetDesktop to " ++ numStr n ++ "

    -- Find the app in the Dock
    tell dock preferences
        set autohideValue to autohide
    end tell

    tell process \"Dock\"
        try
            -- Find the app\x27s icon in the Dock
            set appIcon to first UI element of list 1 whose name contains appName

            -- Right-click on the Dock icon
            perform action \"AXShowMenu\" of appIcon
            delay 0.3

            -- Navigate to Options > Assign To > Desktop X
            tell menu 1 of appIcon
                if exists menu item \"Options\" then
                    click menu item \"Options\"
                    delay 0.2

                    tell menu 1 of menu item \"Options\"
                        if exists menu item \"Assign To\" then
                            click menu item \"Assign To\"
                            delay 0.2

                            tell menu 1 of menu item \"Assign To\"
                                -- Try different naming patterns
                                set desktopNames to \x7b\"Desktop \" & targetDesktop, \"Desktop on Display \" & targetDesktop, targetDesktop as string\x7d

                                repeat with desktopName in desktopNames
                                    if exists menu item desktopName then
                                        click menu item desktopName
                                        return \"success\"
                                    end if
                                end repeat

                                -- Desktop not found
                                key code 53 -- Escape to close menus
                                return \"error:desktop_not_found\"
                            end tell
                        else
                            key code 53
                            return \"error:no_assign_to\"
                        end if
                    end tell
                else
                    key code 53
                    return \"error:no_options\"
                end if
            end tell
        on error errMsg
            return \"error:dock_error|\" & errMsg
        end try
    end tell
end tell
"

/-- Verbatim text of the template literal at src/unnamed/part_003 lines 246-339. -/
def assignToScript (n : Int) : String :=
  "
tell application \"System Events\"
    -- Get frontmost application and window
    set frontApp to first application process whose frontmost is true
    set appName to name of frontApp

    -- Check for window
    if (count of windows of frontApp) = 0 then
        return \"error:no_window\"
    end if

    set targetDesktop to " ++ numStr n ++ "

    -- Use Window menu to move to desktop
    tell process appName
        set frontmost to true
        delay 0.1

        -- Check if Window menu exists
        if not (exists menu bar item \"Window\" of menu bar 1) then
            return \"error:no_window_menu\"
        end if

        -- Open Window menu
        click menu bar item \"Window\" of menu bar 1
        delay 0.3

        set theMenu to menu \"Window\" of menu bar item \"Window\" of menu bar 1

        -- Try different menu item patterns (varies by macOS version)
        -- Sonoma/Sequoia: \"Move Window to Desktop X\"
        -- Earlier: \"Desktop X\" directly or under \"Move to\" submenu

        if exists menu item (\"Move Window to Desktop \" & targetDesktop) of theMenu then
            click menu item (\"Move Window to Desktop \" & targetDesktop) of theMenu
            return \"success\"
        end if

        -- Look for \"Assign To\" submenu (appears in some macOS versions)
        if exists menu item \"Assign To\" of theMenu then
            click menu item \"Assign To\" of theMenu
            delay 0.25

            set subMenu to menu 1 of menu item \"Assign To\" of theMenu

            -- Try different naming patterns
            if exists menu item (\"Desktop \" & targetDesktop) of subMenu then
                click menu item (\"Desktop \" & targetDesktop) of subMenu
                return \"success\"
            else if exists menu item (targetDesktop as string) of subMenu then
                click menu item (targetDesktop as string) of subMenu
                return \"success\"
            end if

            -- Close submenu if desktop not found
            key code 53
            return \"error:desktop_not_in_menu\"
        end if

        -- Check for \"Move to\" submenu
        if exists menu item \"Move to\" of theMenu then
            click menu item \"Move to\" of theMenu
            delay 0.25

            set subMenu to menu 1 of menu item \"Move to\" of theMenu

            -- Try different naming patterns
            if exists menu item (\"Desktop \" & targetDesktop) of subMenu then
                click menu item (\"Desktop \" & targetDesktop) of subMenu
                return \"success\"
            else if exists menu item (targetDesktop as string) of subMenu then
                click menu item (targetDesktop as string) of subMenu
                return \"success\"
            end if

            -- Close submenu if desktop not found
            key code 53
            return \"error:desktop_not_in_menu\"
        end if

        -- Debug: List what\x27s actually in the menu
        set menuItemsList to \"\"
        repeat with menuItem in menu items of theMenu
            try
                set menuItemsList to menuItemsList & (name of menuItem) & \", \"
            end try
        end repeat

        -- Close menu if no \"Move to\" or \"Assign To\" option
        key code 53
        return \"error:no_move_option|\" & menuItemsList
    end tell
end tell
"

/-- Verbatim text of the template literal at src/unnamed/part_003 lines 484-654. -/
def jxaScriptText (n : Int) : String :=
  "
\x23!/usr/bin/env osascript -l JavaScript

function run(argv) \x7b
  // Import Cocoa framework for cursor manipulation
  ObjC.import(\x27Cocoa\x27);
  const App = Application.currentApplication();
  App.includeStandardAdditions = true;

  // Cursor manipulation helper
  const Cursor = \x7b
    __events: \x7b
      button: \x7b
        left: \x7b
          drag: $.kCGEventLeftMouseDragged,
          down: $.kCGEventLeftMouseDown,
          up: $.kCGEventLeftMouseUp,
        \x7d,
      \x7d,
      move: $.kCGEventMouseMoved,
    \x7d,
    __eventFactory(type, pos) \x7b
      var event = $.CGEventCreateMouseEvent(
        $(),
        type,
        pos,
        $.kCGMouseButtonLeft,
      );
      $.CGEventPost($.kCGHIDEventTap, event);
      delay(0.01);
    \x7d,
    get position() \x7b
      const screenH = $.NSScreen.mainScreen.frame.size.height;
      const pos = $.NSEvent.mouseLocation;
      return [
        parseInt(pos.x),
        screenH - Math.trunc(pos.y),
      ];
    \x7d,
    get x() \x7b
      return Cursor.position[0];
    \x7d,
    get y() \x7b
      return Cursor.position[1];
    \x7d,
    leftButton: \x7b
      down([x = Cursor.x, y = Cursor.y]) \x7b
        Cursor.__eventFactory(Cursor.__events.button.left.down, \x7b x, y \x7d);
      \x7d,
      up([x = Cursor.x, y = Cursor.y]) \x7b
        Cursor.__eventFactory(Cursor.__events.button.left.up, \x7b x, y \x7d);
      \x7d,
      click([x = Cursor.x, y = Cursor.y]) \x7b
        Cursor.leftButton.down([x, y]);
        Cursor.leftButton.up([x, y]);
      \x7d,
    \x7d,
    drag([x, y], from = [Cursor.x, Cursor.y]) \x7b
      Cursor.leftButton.down(from);
      Cursor.__eventFactory(Cursor.__events.button.left.drag, \x7b x, y \x7d);
      delay(0.5);
      Cursor.leftButton.up([x, y]);
    \x7d,
    move([x, y]) \x7b
      Cursor.__eventFactory(Cursor.__events.move, \x7b x, y \x7d);
    \x7d,
  \x7d;

  // Get frontmost application and window
  const FrontmostApp = () =>
    Application(\x27System Events\x27).applicationProcesses.whose(\x7b
      frontmost: true,
    \x7d)()[0];

  const FrontmostWindow = () => FrontmostApp().windows.at(0);

  // Get position of desktop broker in Mission Control
  const DesktopBrokerPosition = (desktop) => \x7b
    // Jiggle cursor at top to reveal desktop brokers
    const restore = Cursor.position;
    Cursor.move([10, 10]);
    Cursor.move([20, 10]);
    Cursor.move(restore);

    try \x7b
      return Application(\x27System Events\x27)
        .applicationProcesses.byName(\x27Dock\x27)
        .groups.byName(\x27Mission Control\x27)
        .groups.at(0)
        .groups.byName(\x27Spaces Bar\x27)
        .lists.at(0)
        .buttons.byName(\x60Desktop $\x7bdesktop\x7d\x60)
        .properties().position;
    \x7d catch (e) \x7b
      throw new Error(\x60Desktop $\x7bdesktop\x7d not found. Please ensure you have $\x7bdesktop\x7d or more virtual desktops configured in Mission Control.\x60);
    \x7d
  \x7d;

  // Get position of window broker in Mission Control
  const WindowBrokerPosition = (windowTitle) => \x7b
    try \x7b
      return Application(\x27System Events\x27)
        .applicationProcesses.byName(\x27Dock\x27)
        .groups.byName(\x27Mission Control\x27)
        .groups.at(0)
        .groups.at(0)
        .buttons.byName(windowTitle)
        .properties().position;
    \x7d catch (e) \x7b
      throw new Error(\x60Window \"$\x7bwindowTitle\x7d\" not found in Mission Control.\x60);
    \x7d
  \x7d;

  // Main script execution
  try \x7b
    const targetDesktop = " ++ numStr n ++ ";

    // Check if there\x27s a frontmost window
    const frontApp = FrontmostApp();
    if (!frontApp) \x7b
      throw new Error(\x27No active application found\x27);
    \x7d

    const windows = frontApp.windows();
    if (windows.length === 0) \x7b
      throw new Error(\x27No active window found\x27);
    \x7d

    // Store window title and cursor position
    const windowTitle = FrontmostWindow().title();
    const restoreCursor = Cursor.position;

    // Launch Mission Control
    Application(\x27Mission Control\x27).launch();
    delay(0.5);

    // Get positions
    const [desktopX, desktopY] = DesktopBrokerPosition(targetDesktop);
    const [windowX, windowY] = WindowBrokerPosition(windowTitle);

    // Move cursor to top to ensure Spaces bar is visible
    Cursor.move([10, 10]);

    // Jiggle cursor over window broker to activate it
    Cursor.move([windowX + 30, windowY + 30]);
    delay(0.2);
    Cursor.move([windowX + 40, windowY + 40]);
    delay(0.2);
    Cursor.move([windowX + 30, windowY + 30]);

    // Drag window to target desktop
    Cursor.drag([desktopX + 10, desktopY + 10], [windowX + 30, windowY + 30]);
    delay(0.5);

    // Click target desktop to switch focus
    Cursor.leftButton.click([desktopX + 10, desktopY + 10]);

    // Restore cursor position
    Cursor.move(restoreCursor);

    return \x27Success\x27;
  \x7d catch (error) \x7b
    // Exit Mission Control if it\x27s still open
    try \x7b
      Application(\x27System Events\x27).keyCode(53); // ESC key
    \x7d catch (e) \x7b\x7d

    throw error;
  \x7d
\x7d
"

/-- Verbatim text of the template literal at src/unnamed/part_003 lines 733-780. -/
def sweepScript (n : Int) : String :=
  "
tell application \"System Events\"
    -- Get frontmost application and window
    set frontApp to first application process whose frontmost is true
    set appName to name of frontApp

    -- Check for window
    if (count of windows of frontApp) = 0 then
        return \"error:no_window\"
    end if

    set targetDesktop to " ++ numStr n ++ "

    -- Make sure the app is frontmost
    tell process appName
        set frontmost to true
    end tell

    delay 0.2

    -- Strategy: Move to Desktop 1 first (by going left repeatedly)
    -- Then move right (targetDesktop - 1) times

    -- Move to Desktop 1 by pressing left arrow 10 times
    -- (more than enough to reach desktop 1 from any desktop)
    repeat 10 times
        tell application \"System Events\"
            -- Control + Left Arrow = move window one space left
            key code 123 using \x7bcontrol down\x7d
        end tell
        delay 0.15
    end repeat

    -- Now we\x27re at Desktop 1, move right to target desktop
    if targetDesktop > 1 then
        repeat (targetDesktop - 1) times
            tell application \"System Events\"
                -- Control + Right Arrow = move window one space right
                key code 124 using \x7bcontrol down\x7d
            end tell
            delay 0.15
        end repeat
    end if

    delay 0.3
    return \"success\"
end tell
"

/-- Verbatim text of the template literal at src/unnamed/part_000 lines 250-261. -/
def keysSetupMsg (n : Int) : String :=
  "Enable Mission Control keyboard shortcuts:

1. System Settings → Keyboard
2. Keyboard Shortcuts → Mission Control
3. Enable: \"Move window to Desktop " ++ numStr n ++ "\"
   (or enable all \"Move window to Desktop 1, 2, 3...\")

Then create Desktop " ++ numStr n ++ " if it doesn\x27t exist:
- Open Mission Control (F3)
- Hover top-right → Click +

Alternative: Manually drag window in Mission Control"

/-- Verbatim text of the template literal at src/unnamed/part_000 lines 288-293. -/
def keysCatchDebugMsg (n : Int) (m : String) : String :=
  "Error: " ++ m ++ "

Trying to move window to Desktop " ++ numStr n ++ ". Make sure:
1. Desktop " ++ numStr n ++ " exists (check Mission Control)
2. The app has a Window menu
3. Raycast has Accessibility permissions"

/-- Verbatim text of the template literal at src/unnamed/part_000 lines 279-282. -/
def accEnableMsg : String :=
  "Raycast needs Accessibility permission to move windows.

Enable it:
System Settings → Privacy & Security → Accessibility → Enable Raycast"

/-- Verbatim text of the template literal at src/unnamed/part_001 lines 114-118. -/
def menuSimpleNoMenuMsg (n : Int) : String :=
  "This app doesn\x27t have a Window menu.

Alternative: Manually drag the window to Desktop " ++ numStr n ++ ":
1. Open Mission Control (F3)
2. Drag the window to Desktop " ++ numStr n ++ " at the top"

/-- Verbatim text of the template literal at src/unnamed/part_001 lines 124-129. -/
def menuSimpleMenuNotFoundMsg (n : Int) : String :=
  "Desktop " ++ numStr n ++ " not found in Window menu.

Possible reasons:
• You may not have " ++ numStr n ++ " desktops configured
• The app may not support window movement
• Try manually: Mission Control (F3) → Drag window to Desktop " ++ numStr n

/-- Verbatim text of the template literal at src/unnamed/part_001 lines 141-144. -/
def accAddMsg : String :=
  "Accessibility permission required.

Enable for Raycast:
System Settings → Privacy & Security → Accessibility → Add Raycast"

/-- Verbatim text of the template literal at src/unnamed/part_001 lines 279-285. -/
def relativeFailMsg (n : Int) (r : String) : String :=
  "Could not move window to Desktop " ++ numStr n ++ ".

Error: " ++ r ++ "

Make sure:
1. Desktop " ++ numStr n ++ " exists (create in Mission Control)
2. Keyboard shortcuts are enabled in System Settings"

/-- Verbatim text of the template literal at src/unnamed/part_001 lines 312-319. -/
def relativeCatchDebugMsg (n : Int) (m : String) : String :=
  "Error: " ++ m ++ "

Trying to move window to Desktop " ++ numStr n ++ ". Make sure:
1. Desktop " ++ numStr n ++ " exists (check Mission Control - press F3)
2. Keyboard shortcuts are enabled:
   System Settings → Keyboard → Keyboard Shortcuts → Mission Control
   → Enable \"Move window one space left\" and \"Move window one space right\"
3. Raycast has Accessibility permissions"

/-- Verbatim text of the template literal at src/unnamed/part_002 lines 123-127. -/
def wmNoWindowMenuMsg (n : Int) : String :=
  "This app doesn\x27t have a Window menu.

Try manually:
1. Open Mission Control (swipe up with 3-4 fingers or press F3)
2. Drag the window to Desktop " ++ numStr n ++ " at the top"

/-- Verbatim text of the template literal at src/unnamed/part_002 lines 133-137. -/
def wmDesktopNotInMenuMsg (n : Int) : String :=
  "Desktop " ++ numStr n ++ " is not in the Window menu.

To fix:
1. Create Desktop " ++ numStr n ++ ": Mission Control (F3) → hover top-right → click +
2. Or assign the window to an existing desktop from the Window menu"

/-- Verbatim text of the template literal at src/unnamed/part_002 lines 143-147. -/
def wmNoMoveOptionMsg (n : Int) : String :=
  "This app\x27s Window menu doesn\x27t have \"Move to\" option.

Try manually:
1. Open Mission Control (F3)
2. Drag window to Desktop " ++ numStr n

/-- Verbatim text of the template literal at src/unnamed/part_003 lines 129-134. -/
def dockDesktopNotFoundMsg (n : Int) : String :=
  "Desktop " ++ numStr n ++ " not found in Dock menu.

Create Desktop " ++ numStr n ++ ":
1. Open Mission Control (F3 or swipe up)
2. Hover top-right corner → Click +
3. Create desktops until you have Desktop " ++ numStr n

/-- Verbatim text of the template literal at src/unnamed/part_003 lines 140-145. -/
def dockNoAssignToMsg : String :=
  "\"Assign To\" option not found in Dock menu.

Make sure \"Displays have separate Spaces\" is enabled:
System Settings → Desktop & Dock → Mission Control
→ Enable \"Displays have separate Spaces\"
→ Log out and log back in"

/-- Verbatim text of the template literal at src/unnamed/part_003 lines 153-157. -/
def dockAccessErrorMsg (m : String) : String :=
  "Could not access Dock menu: " ++ m ++ "

Make sure:
1. The app is in your Dock
2. Raycast has Accessibility permissions"

/-- Verbatim text of the template literal at src/unnamed/part_003 lines 163-167. -/
def dockFailMsg (n : Int) (r : String) : String :=
  "Could not move window to Desktop " ++ numStr n ++ ".

Error: " ++ r ++ "

Try manually: Right-click app in Dock → Options → Assign To → Desktop " ++ numStr n

/-- Verbatim text of the template literal at src/unnamed/part_003 lines 194-201. -/
def dockCatchDebugMsg (n : Int) (m : String) : String :=
  "Error: " ++ m ++ "

Trying to move window to Desktop " ++ numStr n ++ ". Make sure:
1. Desktop " ++ numStr n ++ " exists (check Mission Control - press F3)
2. \"Displays have separate Spaces\" is enabled:
   System Settings → Desktop & Dock → Mission Control
3. The app is in your Dock
4. Raycast has Accessibility permissions"

/-- Verbatim text of the template literal at src/unnamed/part_003 lines 364-368. -/
def assignToNoWindowMenuMsg (n : Int) : String :=
  "This app doesn\x27t have a Window menu.

Try manually:
1. Open Mission Control (swipe up with 3-4 fingers or press F3)
2. Drag the window to Desktop " ++ numStr n ++ " at the top"

/-- Verbatim text of the template literal at src/unnamed/part_003 lines 374-378. -/
def assignToDesktopNotInMenuMsg (n : Int) : String :=
  "Desktop " ++ numStr n ++ " is not in the Window menu.

To fix:
1. Create Desktop " ++ numStr n ++ ": Mission Control (F3) → hover top-right → click +
2. Or assign the window to an existing desktop from the Window menu"

/-- Verbatim text of the template literal at src/unnamed/part_003 lines 388-394. -/
def assignToNoMoveOptionMsg (items : String) (n : Int) : String :=
  "Window menu items found: " ++ items ++ "

This likely means:
1. Mission Control settings need adjustment:
   System Settings → Desktop & Dock → Mission Control
   → Enable \"Displays have separate Spaces\"
2. Or manually move: Open Mission Control (F3) → Drag window to Desktop " ++ numStr n

/-- Verbatim text of the template literal at src/unnamed/part_003 lines 401-406. -/
def assignToUnknownErrMsg (r : String) (n : Int) : String :=
  "AppleScript returned: " ++ r ++ "

Please report this issue with details about:
- Which app you were moving
- Your macOS version
- Whether Desktop " ++ numStr n ++ " exists"

/-- Verbatim text of the template literal at src/unnamed/part_003 lines 433-438. -/
def assignToCatchDebugMsg (n : Int) (m : String) : String :=
  "Error: " ++ m ++ "

Trying to move window to Desktop " ++ numStr n ++ ". Make sure:
1. Desktop " ++ numStr n ++ " exists (check Mission Control)
2. The app has a Window menu
3. Raycast has Accessibility permissions"

/-- Verbatim text of the template literal at src/unnamed/part_003 lines 686-686. -/
def jxaNotFoundMsg (n : Int) : String :=
  "Desktop " ++ numStr n ++ " not found. Please ensure you have " ++ numStr n ++ " or more virtual desktops configured in Mission Control (System Settings → Desktop & Dock → Mission Control)."

/-- Verbatim text of the template literal at src/unnamed/part_003 lines 812-824. -/
def sweepSetupMsg (n : Int) : String :=
  "Enable Mission Control keyboard shortcuts:

1. System Settings → Keyboard → Keyboard Shortcuts
2. Click \"Mission Control\" on the left
3. Enable these (with default shortcuts):
   ✅ Move left a space (^←)
   ✅ Move right a space (^→)

Then create Desktop " ++ numStr n ++ " if it doesn\x27t exist:
- Open Mission Control (F3)
- Hover top-right → Click + to create desktops

Alternative: Manually drag window in Mission Control"

/-- Verbatim text of the template literal at src/unnamed/part_003 lines 851-858. -/
def sweepCatchDebugMsg (n : Int) (m : String) : String :=
  "Error: " ++ m ++ "

Trying to move window to Desktop " ++ numStr n ++ ". Make sure:
1. Desktop " ++ numStr n ++ " exists (check Mission Control - press F3)
2. Keyboard shortcuts are enabled:
   System Settings → Keyboard → Keyboard Shortcuts → Mission Control
   → Enable \"Move left a space\" and \"Move right a space\"
3. Raycast has Accessibility permissions"
/-!
## The commands

Each command is modelled as a function from its raw string argument (and,
for the JXA variant, the temp-directory path, the `Date.now()` stamp and
the fate of the `unlinkSync` call) and the automation outcome to the list
of effects of the run, in program order.
-/

/-- Result handling of src/move-to-display.tsx lines 104-119:
`const [status, message] = result.split("|")`, Failure on `status ===
"ERROR"`, Success otherwise. -/
def displayResultEvents (n : Int) (result : String) : List Event :=
  let parts := jsSplitOnChar '|' result
  let status := parts.headD ""
  let message := parts[1]?
  if status = "ERROR" then
    [failureToast "Failed to Move Window" (jsOrElse message "Unknown error occurred")]
  else
    [successToast "Window Moved" ("Successfully moved to Display " ++ numStr n)]

/-- Catch block of src/move-to-display.tsx lines 120-127. -/
def displayCatchEvents (m : String) : List Event :=
  [failureToast "Failed to Move Window" m]

/-- Events of the display mover after the automation returns. -/
def displayAfter (n : Int) (auto : AutoOutcome) : List Event :=
  match auto with
  | .ret r => displayResultEvents n r
  | .thrown m => displayCatchEvents m

/-- src/move-to-display.tsx: the `move-to-display` command. -/
def moveToDisplay (displayNumber : String) (auto : AutoOutcome) : List Event :=
  match jsParseInt displayNumber with
  | none => [invalidDisplayToast]
  | some n =>
      if n < 1 then [invalidDisplayToast]
      else
        animatedToast "Moving Window..." ("Moving to Display " ++ numStr n) ::
        Event.runScript (displayScript n) ::
        displayAfter n auto

/-- Result handling of src/unnamed/part_000 lines 118-132 (Window-menu
with keyboard fallback variant): Failure iff the result `includes`
`"Error:"`, with the first `"Error: "` stripped from the message. -/
def menuFallbackResultEvents (n : Int) (result : String) : List Event :=
  if strContains result "Error:" then
    [failureToast "Failed to Move Window" (jsReplaceFirst result "Error: " "")]
  else
    [successToast "Window Moved" ("Moved to Desktop " ++ numStr n)]

/-- Catch block of src/unnamed/part_000 lines 133-140. -/
def menuFallbackCatchEvents (m : String) : List Event :=
  [failureToast "Failed to Move Window" m]

/-- Events of the menu-fallback variant after the automation returns. -/
def menuFallbackAfter (n : Int) (auto : AutoOutcome) : List Event :=
  match auto with
  | .ret r => menuFallbackResultEvents n r
  | .thrown m => menuFallbackCatchEvents m

/-- src/unnamed/part_000 (second document): desktop mover using the Window
menu with a keyboard-shortcut fallback inside the AppleScript;
`runAppleScript`, no `closeMainWindow`, no loading toast. -/
def desktopMenuFallback (desktopNumber : String) (auto : AutoOutcome) : List Event :=
  match jsParseInt desktopNumber with
  | none => [invalidDesktopToast]
  | some n =>
      if n < 1 then [invalidDesktopToast]
      else
        Event.runScript (menuFallbackScript n) ::
        menuFallbackAfter n auto

/-- The "Moving Window" animated toast shared by the desktop-mover variants
that show a loading state. -/
def movingToast (n : Int) : Event :=
  animatedToast "Moving Window" ("Moving to Desktop " ++ numStr n ++ "...")

/-- The catch-block shape shared by the variants at src/unnamed/part_000
(third document), part_001 (second document) and part_003 (first, second
and fourth documents): `console.error`, then a three-way classification of
the error message, with a per-variant debug message in the generic case. -/
def commonCatchEvents (debugMsg : String) (m : String) : List Event :=
  Event.consoleError ("Move failed with error: " ++ m) ::
  (let lm := jsToLower m
   if strContains lm "accessibility" || strContains lm "not authorized" ||
      strContains lm "not allowed assistive" then
     [failureToast "Accessibility Permission Required" accEnableMsg]
   else if strContains lm "connection is invalid" then
     [failureToast "App Not Available" "The frontmost app is not available or has no windows."]
   else
     [failureToast "Move Failed" debugMsg])

/-- Result handling of src/unnamed/part_000 lines 227-263 (Ctrl+Opt
keyboard-shortcut variant). -/
def keysResultEvents (n : Int) (result : String) : List Event :=
  if result = "success" then
    [successToast "Window Moved" ("Moved to Desktop " ++ numStr n)]
  else if result = "error:no_window" then
    [failureToast "No Window Found" "The frontmost app has no windows to move"]
  else if result = "error:invalid_desktop" then
    [failureToast "Invalid Desktop Number" "Desktop number must be between 1 and 9"]
  else
    [failureToast "Move Failed - Setup Required" (keysSetupMsg n)]

/-- Events of the keyboard-shortcut variant after the automation returns
(`execSync(...).trim()`). -/
def keysAfter (n : Int) (auto : AutoOutcome) : List Event :=
  match auto with
  | .ret raw => keysResultEvents n (jsTrim raw)
  | .thrown m => commonCatchEvents (keysCatchDebugMsg n m) m

/-- src/unnamed/part_000 (third document): desktop mover pressing
Ctrl+Opt+number via System Events. -/
def desktopKeys (desktopNumber : String) (auto : AutoOutcome) : List Event :=
  match jsParseInt desktopNumber with
  | none => [invalidDesktopToast]
  | some n =>
      if n < 1 then [invalidDesktopToast]
      else
        Event.closeMain ::
        movingToast n ::
        Event.runScript (keysScript n) ::
        keysAfter n auto

/-- Catch block shared by src/unnamed/part_001 (first document) lines
134-152 and src/unnamed/part_002 lines 152-170: no `console.error`, two
accessibility keywords, title always "Move Failed". -/
def simpleCatchEvents (m : String) : List Event :=
  let lm := jsToLower m
  if strContains lm "accessibility" || strContains lm "not authorized" then
    [failureToast "Move Failed" accAddMsg]
  else
    [failureToast "Move Failed" m]

/-- Result handling of src/unnamed/part_001 lines 98-133 (simple Window-menu
variant); an unrecognized result is re-thrown (`throw new Error(result)`)
and lands in the command's own catch block. -/
def menuSimpleResultEvents (n : Int) (result : String) : List Event :=
  if result = "success" then
    [successToast "Window Moved" ("Moved to Desktop " ++ numStr n)]
  else if result = "error:no_window" then
    [failureToast "No Window Found" "Please focus a window first and try again"]
  else if result = "error:no_menu" then
    [failureToast "Window Menu Not Available" (menuSimpleNoMenuMsg n)]
  else if result = "error:menu_not_found" then
    [failureToast "Desktop Not in Menu" (menuSimpleMenuNotFoundMsg n)]
  else
    simpleCatchEvents result

/-- Events of the simple Window-menu variant after the automation returns. -/
def menuSimpleAfter (n : Int) (auto : AutoOutcome) : List Event :=
  match auto with
  | .ret raw => menuSimpleResultEvents n (jsTrim raw)
  | .thrown m => simpleCatchEvents m

/-- src/unnamed/part_001 (first document): desktop mover clicking the
Window menu, `osascript -e`. -/
def desktopMenuSimple (desktopNumber : String) (auto : AutoOutcome) : List Event :=
  match jsParseInt desktopNumber with
  | none => [invalidDesktopToast]
  | some n =>
      if n < 1 then [invalidDesktopToast]
      else
        Event.closeMain ::
        movingToast n ::
        Event.runScript (menuSimpleScript n) ::
        menuSimpleAfter n auto

/-- Result handling of src/unnamed/part_001 lines 263-287 (relative-move
variant). -/
def relativeResultEvents (n : Int) (result : String) : List Event :=
  if result = "success" then
    [successToast "Window Moved" ("Moved to Desktop " ++ numStr n)]
  else if result = "error:no_window" then
    [failureToast "No Window Found" "The frontmost app has no windows to move"]
  else
    [failureToast "Move Failed" (relativeFailMsg n result)]

/-- Events of the relative-move variant after the automation returns. -/
def relativeAfter (n : Int) (auto : AutoOutcome) : List Event :=
  match auto with
  | .ret raw => relativeResultEvents n (jsTrim raw)
  | .thrown m => commonCatchEvents (relativeCatchDebugMsg n m) m

/-- src/unnamed/part_001 (second document): desktop mover that queries the
current Space and moves the window left/right with Ctrl+Shift+arrows. -/
def desktopRelative (desktopNumber : String) (auto : AutoOutcome) : List Event :=
  match jsParseInt desktopNumber with
  | none => [invalidDesktopToast]
  | some n =>
      if n < 1 then [invalidDesktopToast]
      else
        Event.closeMain ::
        movingToast n ::
        Event.runScript (relativeScript n) ::
        relativeAfter n auto

/-- Result handling of src/unnamed/part_002 lines 107-151 (Window-menu
variant); unrecognized results are re-thrown into the catch block. -/
def windowMenuResultEvents (n : Int) (result : String) : List Event :=
  if result = "success" then
    [successToast "Window Moved" ("Moved to Desktop " ++ numStr n)]
  else if result = "error:no_window" then
    [failureToast "No Window Found" "The frontmost app has no windows to move"]
  else if result = "error:no_window_menu" then
    [failureToast "No Window Menu" (wmNoWindowMenuMsg n)]
  else if result = "error:desktop_not_in_menu" then
    [failureToast "Desktop Not Available" (wmDesktopNotInMenuMsg n)]
  else if result = "error:no_move_option" then
    [failureToast "Move Option Not Found" (wmNoMoveOptionMsg n)]
  else
    simpleCatchEvents result

/-- Events of the Window-menu variant after the automation returns. -/
def windowMenuAfter (n : Int) (auto : AutoOutcome) : List Event :=
  match auto with
  | .ret raw => windowMenuResultEvents n (jsTrim raw)
  | .thrown m => simpleCatchEvents m

/-- src/unnamed/part_002: desktop mover via the app's Window menu,
`osascript -e`. -/
def desktopWindowMenu (desktopNumber : String) (auto : AutoOutcome) : List Event :=
  match jsParseInt desktopNumber with
  | none => [invalidDesktopToast]
  | some n =>
      if n < 1 then [invalidDesktopToast]
      else
        Event.closeMain ::
        movingToast n ::
        Event.runScript (windowMenuScript n) ::
        windowMenuAfter n auto

/-- Result handling of src/unnamed/part_003 lines 113-169 (Dock context-menu
variant), including the `error:dock_error|...` prefixed sentinel. -/
def dockResultEvents (n : Int) (result : String) : List Event :=
  if result = "success" then
    [successToast "Window Moved" ("Moved to Desktop " ++ numStr n)]
  else if result = "error:no_window" then
    [failureToast "No Window Found" "The frontmost app has no windows to move"]
  else if result = "error:desktop_not_found" then
    [failureToast "Desktop Not Found" (dockDesktopNotFoundMsg n)]
  else if result = "error:no_assign_to" then
    [failureToast "Assign To Not Available" dockNoAssignToMsg]
  else if strStartsWith result "error:dock_error" then
    let parts := jsSplitOnChar '|' result
    let errorMsg := if parts.length > 1 then parts.getD 1 "" else "unknown"
    [failureToast "Dock Access Error" (dockAccessErrorMsg errorMsg)]
  else
    [failureToast "Move Failed" (dockFailMsg n result)]

/-- Events of the Dock variant after the automation returns. -/
def dockAfter (n : Int) (auto : AutoOutcome) : List Event :=
  match auto with
  | .ret raw => dockResultEvents n (jsTrim raw)
  | .thrown m => commonCatchEvents (dockCatchDebugMsg n m) m

/-- src/unnamed/part_003 (first document): desktop mover via the Dock
icon's "Options > Assign To" context menu. -/
def desktopDock (desktopNumber : String) (auto : AutoOutcome) : List Event :=
  match jsParseInt desktopNumber with
  | none => [invalidDesktopToast]
  | some n =>
      if n < 1 then [invalidDesktopToast]
      else
        Event.closeMain ::
        movingToast n ::
        Event.runScript (dockScript n) ::
        dockAfter n auto

/-- Result handling of src/unnamed/part_003 lines 348-408 (Window-menu
"Assign To" variant), including the `error:no_move_option|...` prefixed
sentinel carrying the menu-item listing. -/
def assignToResultEvents (n : Int) (result : String) : List Event :=
  if result = "success" then
    [successToast "Window Moved" ("Moved to Desktop " ++ numStr n)]
  else if result = "error:no_window" then
    [failureToast "No Window Found" "The frontmost app has no windows to move"]
  else if result = "error:no_window_menu" then
    [failureToast "No Window Menu" (assignToNoWindowMenuMsg n)]
  else if result = "error:desktop_not_in_menu" then
    [failureToast "Desktop Not Available" (assignToDesktopNotInMenuMsg n)]
  else if strStartsWith result "error:no_move_option" then
    let parts := jsSplitOnChar '|' result
    let menuItems := if parts.length > 1 then parts.getD 1 "" else "unknown"
    [failureToast "Move Option Not Found" (assignToNoMoveOptionMsg menuItems n)]
  else
    [failureToast "Unknown Error" (assignToUnknownErrMsg result n)]

/-- Events of the Assign-To variant after the automation returns. -/
def assignToAfter (n : Int) (auto : AutoOutcome) : List Event :=
  match auto with
  | .ret raw => assignToResultEvents n (jsTrim raw)
  | .thrown m => commonCatchEvents (assignToCatchDebugMsg n m) m

/-- src/unnamed/part_003 (second document): desktop mover via the Window
menu's "Move Window to Desktop"/"Assign To"/"Move to" entries. -/
def desktopAssignTo (desktopNumber : String) (auto : AutoOutcome) : List Event :=
  match jsParseInt desktopNumber with
  | none => [invalidDesktopToast]
  | some n =>
      if n < 1 then [invalidDesktopToast]
      else
        Event.closeMain ::
        movingToast n ::
        Event.runScript (assignToScript n) ::
        assignToAfter n auto

/-- The temp-file path `join(tmpdir(), "move-window-" + Date.now() + ".jxa")`
of src/unnamed/part_003 line 657. -/
def jxaTmpPath (tmpDir : String) (now : Nat) : String :=
  tmpDir ++ "/move-window-" ++ natStr now ++ ".jxa"

/-- Catch block of src/unnamed/part_003 lines 680-696 (JXA variant). -/
def jxaCatchEvents (n : Int) (m : String) : List Event :=
  let userMessage :=
    if strContains m "not found" then jxaNotFoundMsg n
    else if strContains m "No active window" then "No active window found to move."
    else m
  [failureToast "Failed to Move Window" userMessage]

/-- Events of the JXA variant from the `execFileSync` call on: the returned
string is ignored, a Success toast is shown, and the `finally` block always
attempts `unlinkSync` (its own failure, recorded in `ok`, is swallowed). -/
def jxaAfter (n : Int) (path : String) (ok : Bool) (auto : AutoOutcome) : List Event :=
  match auto with
  | .ret _ =>
      [successToast "Window Moved" ("Successfully moved to Desktop " ++ numStr n),
       Event.unlinkTmpFile path ok]
  | .thrown m =>
      Event.unlinkTmpFile path ok :: jxaCatchEvents n m

/-- src/unnamed/part_003 (third document): desktop mover that writes a JXA
cursor-drag script to a temp file and runs it with
`osascript -l JavaScript`; no `closeMainWindow`. -/
def desktopJxa (desktopNumber tmpDir : String) (now : Nat) (unlinkOk : Bool)
    (auto : AutoOutcome) : List Event :=
  match jsParseInt desktopNumber with
  | none => [invalidDesktopToast]
  | some n =>
      if n < 1 then [invalidDesktopToast]
      else
        movingToast n ::
        Event.writeTmpFile (jxaTmpPath tmpDir now) (jxaScriptText n) ::
        Event.runScript (jxaScriptText n) ::
        jxaAfter n (jxaTmpPath tmpDir now) unlinkOk auto

/-- Result handling of src/unnamed/part_003 lines 789-826 (left-sweep
keyboard variant). -/
def sweepResultEvents (n : Int) (result : String) : List Event :=
  if result = "success" then
    [successToast "Window Moved" ("Moved to Desktop " ++ numStr n)]
  else if result = "error:no_window" then
    [failureToast "No Window Found" "The frontmost app has no windows to move"]
  else if result = "error:invalid_desktop" then
    [failureToast "Invalid Desktop Number" "Desktop number must be between 1 and 9"]
  else
    [failureToast "Move Failed - Setup Required" (sweepSetupMsg n)]

/-- Events of the left-sweep variant after the automation returns. -/
def sweepAfter (n : Int) (auto : AutoOutcome) : List Event :=
  match auto with
  | .ret raw => sweepResultEvents n (jsTrim raw)
  | .thrown m => commonCatchEvents (sweepCatchDebugMsg n m) m

/-- src/unnamed/part_003 (fourth document): desktop mover that sweeps the
window ten Spaces left and then right to the target. -/
def desktopSweep (desktopNumber : String) (auto : AutoOutcome) : List Event :=
  match jsParseInt desktopNumber with
  | none => [invalidDesktopToast]
  | some n =>
      if n < 1 then [invalidDesktopToast]
      else
        Event.closeMain ::
        movingToast n ::
        Event.runScript (sweepScript n) ::
        sweepAfter n auto

/-!
## Observations on traces
-/

/-- The argument fails validation: `parseInt` is NaN or the value is < 1. -/
def rejects (s : String) : Bool :=
  match jsParseInt s with
  | none => true
  | some n => decide (n < 1)

/-- Is the event a Success toast? -/
def isSuccessToastEv : Event → Bool
  | .toast .success _ _ => true
  | _ => false

/-- Is the event a Failure toast? -/
def isFailureToastEv : Event → Bool
  | .toast .failure _ _ => true
  | _ => false

/-- Trace contains a Success toast. -/
def hasSuccessToast (tr : List Event) : Bool := tr.any isSuccessToastEv

/-- Trace contains a Failure toast. -/
def hasFailureToast (tr : List Event) : Bool := tr.any isFailureToastEv

/-- Trace reports an outcome (a non-animated toast). -/
def reportsOutcome (tr : List Event) : Bool := hasSuccessToast tr || hasFailureToast tr

/-- Is the event an automation invocation? -/
def isRunScriptEv : Event → Bool
  | .runScript _ => true
  | _ => false

/-- Number of automation invocations in a trace. -/
def runScriptCount (tr : List Event) : Nat := (tr.filter isRunScriptEv).length

/-- The script of an automation invocation event. -/
def scriptOfEv : Event → Option String
  | .runScript s => some s
  | _ => none

/-- The automation scripts executed in a trace, in order. -/
def scriptsOf (tr : List Event) : List String := tr.filterMap scriptOfEv

/-- Is the event a `closeMainWindow` call? -/
def isCloseMainEv : Event → Bool
  | .closeMain => true
  | _ => false

/-- Number of `closeMainWindow` calls in a trace. -/
def closeMainCount (tr : List Event) : Nat := (tr.filter isCloseMainEv).length

/-- Is the event a toast (of any style)? -/
def isToast : Event → Bool
  | .toast _ _ _ => true
  | _ => false

/-- The toasts of a trace, in order. -/
def toastsOf (tr : List Event) : List Event := tr.filter isToast

/-- Success condition of the display mover (lines 104-119): the segment of
the result before the first `|` is not `"ERROR"`. -/
def displaySuccess : AutoOutcome → Bool
  | .ret r => !((jsSplitOnChar '|' r).headD "" == "ERROR")
  | .thrown _ => false

/-- Success condition of the menu-fallback variant (part_000 lines 118-132):
the result does not contain `"Error:"`. -/
def menuFallbackSuccess : AutoOutcome → Bool
  | .ret r => !(strContains r "Error:")
  | .thrown _ => false

/-- Success condition of the `execSync`-based desktop variants: the trimmed
result is exactly `"success"`. -/
def trimmedSuccess : AutoOutcome → Bool
  | .ret raw => jsTrim raw == "success"
  | .thrown _ => false

/-- Success condition of the JXA variant: `execFileSync` did not throw
(the returned string is never inspected). -/
def jxaSuccess : AutoOutcome → Bool
  | .ret _ => true
  | .thrown _ => false
/-!
## Helper lemmas: the validation gate of each command
-/

lemma rejects_spec (s : String) :
    rejects s = true ↔ jsParseInt s = none ∨ ∃ n, jsParseInt s = some n ∧ n < 1 := by
  unfold rejects
  cases h : jsParseInt s <;> simp [h]

lemma moveToDisplay_reject_iff (s : String) (auto : AutoOutcome) :
    moveToDisplay s auto = [invalidDisplayToast] ↔ rejects s = true := by
  unfold moveToDisplay rejects
  cases h : jsParseInt s with
  | none => simp
  | some n =>
      by_cases hn : n < 1 <;>
        simp [hn, animatedToast, invalidDisplayToast, failureToast]

lemma desktopMenuFallback_reject_iff (s : String) (auto : AutoOutcome) :
    desktopMenuFallback s auto = [invalidDesktopToast] ↔ rejects s = true := by
  unfold desktopMenuFallback rejects
  cases h : jsParseInt s with
  | none => simp
  | some n =>
      by_cases hn : n < 1 <;>
        simp [hn, invalidDesktopToast, failureToast]

lemma desktopKeys_reject_iff (s : String) (auto : AutoOutcome) :
    desktopKeys s auto = [invalidDesktopToast] ↔ rejects s = true := by
  unfold desktopKeys rejects
  cases h : jsParseInt s with
  | none => simp
  | some n =>
      by_cases hn : n < 1 <;>
        simp [hn, invalidDesktopToast, failureToast]

lemma desktopMenuSimple_reject_iff (s : String) (auto : AutoOutcome) :
    desktopMenuSimple s auto = [invalidDesktopToast] ↔ rejects s = true := by
  unfold desktopMenuSimple rejects
  cases h : jsParseInt s with
  | none => simp
  | some n =>
      by_cases hn : n < 1 <;>
        simp [hn, invalidDesktopToast, failureToast]

lemma desktopRelative_reject_iff (s : String) (auto : AutoOutcome) :
    desktopRelative s auto = [invalidDesktopToast] ↔ rejects s = true := by
  unfold desktopRelative rejects
  cases h : jsParseInt s with
  | none => simp
  | some n =>
      by_cases hn : n < 1 <;>
        simp [hn, invalidDesktopToast, failureToast]

lemma desktopWindowMenu_reject_iff (s : String) (auto : AutoOutcome) :
    desktopWindowMenu s auto = [invalidDesktopToast] ↔ rejects s = true := by
  unfold desktopWindowMenu rejects
  cases h : jsParseInt s with
  | none => simp
  | some n =>
      by_cases hn : n < 1 <;>
        simp [hn, invalidDesktopToast, failureToast]

lemma desktopDock_reject_iff (s : String) (auto : AutoOutcome) :
    desktopDock s auto = [invalidDesktopToast] ↔ rejects s = true := by
  unfold desktopDock rejects
  cases h : jsParseInt s with
  | none => simp
  | some n =>
      by_cases hn : n < 1 <;>
        simp [hn, invalidDesktopToast, failureToast]

lemma desktopAssignTo_reject_iff (s : String) (auto : AutoOutcome) :
    desktopAssignTo s auto = [invalidDesktopToast] ↔ rejects s = true := by
  unfold desktopAssignTo rejects
  cases h : jsParseInt s with
  | none => simp
  | some n =>
      by_cases hn : n < 1 <;>
        simp [hn, invalidDesktopToast, failureToast]

lemma desktopJxa_reject_iff (s td : String) (now : Nat) (ok : Bool) (auto : AutoOutcome) :
    desktopJxa s td now ok auto = [invalidDesktopToast] ↔ rejects s = true := by
  unfold desktopJxa rejects
  cases h : jsParseInt s with
  | none => simp
  | some n =>
      by_cases hn : n < 1 <;>
        simp [hn, movingToast, animatedToast, invalidDesktopToast, failureToast]

lemma desktopSweep_reject_iff (s : String) (auto : AutoOutcome) :
    desktopSweep s auto = [invalidDesktopToast] ↔ rejects s = true := by
  unfold desktopSweep rejects
  cases h : jsParseInt s with
  | none => simp
  | some n =>
      by_cases hn : n < 1 <;>
        simp [hn, invalidDesktopToast, failureToast]

/-- C1: For every command and every argument string `s`, the command
rejects `s` — its whole run is the single "Invalid Display/Desktop Number"
Failure toast with the message "Please enter a valid display (resp.
desktop) number (1, 2, 3, etc.)", so no automation is invoked — exactly
when `parseInt(s, 10)` is NaN or yields a value less than 1. -/
theorem c1_validation_gate (s : String) (auto : AutoOutcome) (td : String)
    (now : Nat) (ok : Bool) :
    (moveToDisplay s auto = [invalidDisplayToast] ↔ rejects s = true)
    ∧ (desktopMenuFallback s auto = [invalidDesktopToast] ↔ rejects s = true)
    ∧ (desktopKeys s auto = [invalidDesktopToast] ↔ rejects s = true)
    ∧ (desktopMenuSimple s auto = [invalidDesktopToast] ↔ rejects s = true)
    ∧ (desktopRelative s auto = [invalidDesktopToast] ↔ rejects s = true)
    ∧ (desktopWindowMenu s auto = [invalidDesktopToast] ↔ rejects s = true)
    ∧ (desktopDock s auto = [invalidDesktopToast] ↔ rejects s = true)
    ∧ (desktopAssignTo s auto = [invalidDesktopToast] ↔ rejects s = true)
    ∧ (desktopJxa s td now ok auto = [invalidDesktopToast] ↔ rejects s = true)
    ∧ (desktopSweep s auto = [invalidDesktopToast] ↔ rejects s = true)
    ∧ (rejects s = true ↔ jsParseInt s = none ∨ ∃ n, jsParseInt s = some n ∧ n < 1) :=
  ⟨moveToDisplay_reject_iff s auto, desktopMenuFallback_reject_iff s auto,
   desktopKeys_reject_iff s auto, desktopMenuSimple_reject_iff s auto,
   desktopRelative_reject_iff s auto, desktopWindowMenu_reject_iff s auto,
   desktopDock_reject_iff s auto, desktopAssignTo_reject_iff s auto,
   desktopJxa_reject_iff s td now ok auto, desktopSweep_reject_iff s auto,
   rejects_spec s⟩
/-!
## Helper lemmas: which toasts a trace contains
-/

lemma hasSuccessToast_cons (e : Event) (tr : List Event) :
    hasSuccessToast (e :: tr) = (isSuccessToastEv e || hasSuccessToast tr) := rfl

lemma hasFailureToast_cons (e : Event) (tr : List Event) :
    hasFailureToast (e :: tr) = (isFailureToastEv e || hasFailureToast tr) := rfl

lemma hasSuccessToast_nil : hasSuccessToast [] = false := rfl

lemma hasFailureToast_nil : hasFailureToast [] = false := rfl

lemma reports_of (tr : List Event) (b : Bool)
    (hs : hasSuccessToast tr = b) (hf : hasFailureToast tr = !b) :
    reportsOutcome tr = true := by
  unfold reportsOutcome
  rw [hs, hf]
  cases b <;> rfl

lemma displayResult_hasSuccess (n : Int) (r : String) :
    hasSuccessToast (displayResultEvents n r) =
      !((jsSplitOnChar '|' r).headD "" == "ERROR") := by
  unfold displayResultEvents
  try dsimp only
  split_ifs with h1 <;>
    simp_all [hasSuccessToast_cons, hasSuccessToast_nil, isSuccessToastEv, successToast, failureToast]

lemma displayResult_hasFailure (n : Int) (r : String) :
    hasFailureToast (displayResultEvents n r) =
      ((jsSplitOnChar '|' r).headD "" == "ERROR") := by
  unfold displayResultEvents
  try dsimp only
  split_ifs with h1 <;>
    simp_all [hasFailureToast_cons, hasFailureToast_nil, isFailureToastEv, successToast, failureToast]

lemma menuFallbackResult_hasSuccess (n : Int) (r : String) :
    hasSuccessToast (menuFallbackResultEvents n r) = !(strContains r "Error:") := by
  unfold menuFallbackResultEvents
  try dsimp only
  split_ifs with h1 <;>
    simp_all [hasSuccessToast_cons, hasSuccessToast_nil, isSuccessToastEv, successToast, failureToast]

lemma menuFallbackResult_hasFailure (n : Int) (r : String) :
    hasFailureToast (menuFallbackResultEvents n r) = strContains r "Error:" := by
  unfold menuFallbackResultEvents
  try dsimp only
  split_ifs with h1 <;>
    simp_all [hasFailureToast_cons, hasFailureToast_nil, isFailureToastEv, successToast, failureToast]

lemma keysResult_hasSuccess (n : Int) (t : String) :
    hasSuccessToast (keysResultEvents n t) = (t == "success") := by
  unfold keysResultEvents
  try dsimp only
  split_ifs with h1 h2 h3 <;>
    simp_all [hasSuccessToast_cons, hasSuccessToast_nil, isSuccessToastEv, successToast, failureToast]

lemma keysResult_hasFailure (n : Int) (t : String) :
    hasFailureToast (keysResultEvents n t) = !(t == "success") := by
  unfold keysResultEvents
  try dsimp only
  split_ifs with h1 h2 h3 <;>
    simp_all [hasFailureToast_cons, hasFailureToast_nil, isFailureToastEv, successToast, failureToast]

lemma simpleCatch_hasSuccess (m : String) :
    hasSuccessToast (simpleCatchEvents m) = false := by
  unfold simpleCatchEvents
  try dsimp only
  split_ifs with h1 <;>
    simp_all [hasSuccessToast_cons, hasSuccessToast_nil, isSuccessToastEv, failureToast]

lemma simpleCatch_hasFailure (m : String) :
    hasFailureToast (simpleCatchEvents m) = true := by
  unfold simpleCatchEvents
  try dsimp only
  split_ifs with h1 <;>
    simp_all [hasFailureToast_cons, hasFailureToast_nil, isFailureToastEv, failureToast]

lemma commonCatch_hasSuccess (d m : String) :
    hasSuccessToast (commonCatchEvents d m) = false := by
  unfold commonCatchEvents
  try dsimp only
  split_ifs with h1 h2 <;>
    simp_all [hasSuccessToast_cons, hasSuccessToast_nil, hasSuccessToast_cons, isSuccessToastEv, failureToast]

lemma commonCatch_hasFailure (d m : String) :
    hasFailureToast (commonCatchEvents d m) = true := by
  unfold commonCatchEvents
  try dsimp only
  split_ifs with h1 h2 <;>
    simp_all [hasFailureToast_cons, hasFailureToast_nil, hasFailureToast_cons, isFailureToastEv, failureToast]

lemma menuSimpleResult_hasSuccess (n : Int) (t : String) :
    hasSuccessToast (menuSimpleResultEvents n t) = (t == "success") := by
  unfold menuSimpleResultEvents
  try dsimp only
  split_ifs with h1 h2 h3 h4 <;>
    simp_all [hasSuccessToast_cons, hasSuccessToast_nil, isSuccessToastEv, successToast, failureToast,
      simpleCatch_hasSuccess]

lemma menuSimpleResult_hasFailure (n : Int) (t : String) :
    hasFailureToast (menuSimpleResultEvents n t) = !(t == "success") := by
  unfold menuSimpleResultEvents
  try dsimp only
  split_ifs with h1 h2 h3 h4 <;>
    simp_all [hasFailureToast_cons, hasFailureToast_nil, isFailureToastEv, successToast, failureToast,
      simpleCatch_hasFailure]

lemma relativeResult_hasSuccess (n : Int) (t : String) :
    hasSuccessToast (relativeResultEvents n t) = (t == "success") := by
  unfold relativeResultEvents
  try dsimp only
  split_ifs with h1 h2 <;>
    simp_all [hasSuccessToast_cons, hasSuccessToast_nil, isSuccessToastEv, successToast, failureToast]

lemma relativeResult_hasFailure (n : Int) (t : String) :
    hasFailureToast (relativeResultEvents n t) = !(t == "success") := by
  unfold relativeResultEvents
  try dsimp only
  split_ifs with h1 h2 <;>
    simp_all [hasFailureToast_cons, hasFailureToast_nil, isFailureToastEv, successToast, failureToast]

lemma windowMenuResult_hasSuccess (n : Int) (t : String) :
    hasSuccessToast (windowMenuResultEvents n t) = (t == "success") := by
  unfold windowMenuResultEvents
  try dsimp only
  split_ifs with h1 h2 h3 h4 h5 <;>
    simp_all [hasSuccessToast_cons, hasSuccessToast_nil, isSuccessToastEv, successToast, failureToast,
      simpleCatch_hasSuccess]

lemma windowMenuResult_hasFailure (n : Int) (t : String) :
    hasFailureToast (windowMenuResultEvents n t) = !(t == "success") := by
  unfold windowMenuResultEvents
  try dsimp only
  split_ifs with h1 h2 h3 h4 h5 <;>
    simp_all [hasFailureToast_cons, hasFailureToast_nil, isFailureToastEv, successToast, failureToast,
      simpleCatch_hasFailure]

lemma dockResult_hasSuccess (n : Int) (t : String) :
    hasSuccessToast (dockResultEvents n t) = (t == "success") := by
  unfold dockResultEvents
  try dsimp only
  split_ifs with h1 h2 h3 h4 h5 <;>
    simp_all [hasSuccessToast_cons, hasSuccessToast_nil, isSuccessToastEv, successToast, failureToast]

lemma dockResult_hasFailure (n : Int) (t : String) :
    hasFailureToast (dockResultEvents n t) = !(t == "success") := by
  unfold dockResultEvents
  try dsimp only
  split_ifs with h1 h2 h3 h4 h5 <;>
    simp_all [hasFailureToast_cons, hasFailureToast_nil, isFailureToastEv, successToast, failureToast]

lemma assignToResult_hasSuccess (n : Int) (t : String) :
    hasSuccessToast (assignToResultEvents n t) = (t == "success") := by
  unfold assignToResultEvents
  try dsimp only
  split_ifs with h1 h2 h3 h4 h5 <;>
    simp_all [hasSuccessToast_cons, hasSuccessToast_nil, isSuccessToastEv, successToast, failureToast]

lemma assignToResult_hasFailure (n : Int) (t : String) :
    hasFailureToast (assignToResultEvents n t) = !(t == "success") := by
  unfold assignToResultEvents
  try dsimp only
  split_ifs with h1 h2 h3 h4 h5 <;>
    simp_all [hasFailureToast_cons, hasFailureToast_nil, isFailureToastEv, successToast, failureToast]

lemma sweepResult_hasSuccess (n : Int) (t : String) :
    hasSuccessToast (sweepResultEvents n t) = (t == "success") := by
  unfold sweepResultEvents
  try dsimp only
  split_ifs with h1 h2 h3 <;>
    simp_all [hasSuccessToast_cons, hasSuccessToast_nil, isSuccessToastEv, successToast, failureToast]

lemma sweepResult_hasFailure (n : Int) (t : String) :
    hasFailureToast (sweepResultEvents n t) = !(t == "success") := by
  unfold sweepResultEvents
  try dsimp only
  split_ifs with h1 h2 h3 <;>
    simp_all [hasFailureToast_cons, hasFailureToast_nil, isFailureToastEv, successToast, failureToast]

lemma jxaCatch_hasSuccess (n : Int) (m : String) :
    hasSuccessToast (jxaCatchEvents n m) = false := by
  unfold jxaCatchEvents
  try dsimp only
  simp [hasSuccessToast_cons, hasSuccessToast_nil, isSuccessToastEv, failureToast]

lemma jxaCatch_hasFailure (n : Int) (m : String) :
    hasFailureToast (jxaCatchEvents n m) = true := by
  unfold jxaCatchEvents
  try dsimp only
  simp [hasFailureToast_cons, hasFailureToast_nil, isFailureToastEv, failureToast]

/-!
## Helper lemmas: success/failure toasts of each full command run
-/

lemma display_hasSuccess (s : String) (auto : AutoOutcome) :
    hasSuccessToast (moveToDisplay s auto) = (!rejects s && displaySuccess auto) := by
  unfold moveToDisplay rejects displaySuccess
  cases h : jsParseInt s with
  | none =>
      cases auto <;>
        simp [hasSuccessToast, isSuccessToastEv, invalidDisplayToast, failureToast]
  | some n =>
      by_cases hn : n < 1
      · cases auto <;>
          simp [hn, hasSuccessToast, isSuccessToastEv, invalidDisplayToast, failureToast]
      · cases auto with
        | ret r =>
            simp [hn, displayAfter, hasSuccessToast_cons, isSuccessToastEv,
              animatedToast, displayResult_hasSuccess]
        | thrown m =>
            simp [hn, displayAfter, displayCatchEvents, hasSuccessToast,
              isSuccessToastEv, animatedToast, failureToast]

lemma display_hasFailure (s : String) (auto : AutoOutcome) :
    hasFailureToast (moveToDisplay s auto) = !(!rejects s && displaySuccess auto) := by
  unfold moveToDisplay rejects displaySuccess
  cases h : jsParseInt s with
  | none =>
      cases auto <;>
        simp [hasFailureToast, isFailureToastEv, invalidDisplayToast, failureToast]
  | some n =>
      by_cases hn : n < 1
      · cases auto <;>
          simp [hn, hasFailureToast, isFailureToastEv, invalidDisplayToast, failureToast]
      · cases auto with
        | ret r =>
            simp [hn, displayAfter, hasFailureToast_cons, isFailureToastEv,
              animatedToast, displayResult_hasFailure]
        | thrown m =>
            simp [hn, displayAfter, displayCatchEvents, hasFailureToast,
              isFailureToastEv, animatedToast, failureToast]

lemma menuFallback_hasSuccess (s : String) (auto : AutoOutcome) :
    hasSuccessToast (desktopMenuFallback s auto) =
      (!rejects s && menuFallbackSuccess auto) := by
  unfold desktopMenuFallback rejects menuFallbackSuccess
  cases h : jsParseInt s with
  | none =>
      cases auto <;>
        simp [hasSuccessToast, isSuccessToastEv, invalidDesktopToast, failureToast]
  | some n =>
      by_cases hn : n < 1
      · cases auto <;>
          simp [hn, hasSuccessToast, isSuccessToastEv, invalidDesktopToast, failureToast]
      · cases auto with
        | ret r =>
            simp [hn, menuFallbackAfter, hasSuccessToast_cons, isSuccessToastEv,
              menuFallbackResult_hasSuccess]
        | thrown m =>
            simp [hn, menuFallbackAfter, menuFallbackCatchEvents, hasSuccessToast,
              isSuccessToastEv, failureToast]

lemma menuFallback_hasFailure (s : String) (auto : AutoOutcome) :
    hasFailureToast (desktopMenuFallback s auto) =
      !(!rejects s && menuFallbackSuccess auto) := by
  unfold desktopMenuFallback rejects menuFallbackSuccess
  cases h : jsParseInt s with
  | none =>
      cases auto <;>
        simp [hasFailureToast, isFailureToastEv, invalidDesktopToast, failureToast]
  | some n =>
      by_cases hn : n < 1
      · cases auto <;>
          simp [hn, hasFailureToast, isFailureToastEv, invalidDesktopToast, failureToast]
      · cases auto with
        | ret r =>
            simp [hn, menuFallbackAfter, hasFailureToast_cons, isFailureToastEv,
              menuFallbackResult_hasFailure]
        | thrown m =>
            simp [hn, menuFallbackAfter, menuFallbackCatchEvents, hasFailureToast,
              isFailureToastEv, failureToast]

lemma keys_hasSuccess (s : String) (auto : AutoOutcome) :
    hasSuccessToast (desktopKeys s auto) = (!rejects s && trimmedSuccess auto) := by
  unfold desktopKeys rejects trimmedSuccess
  cases h : jsParseInt s with
  | none =>
      cases auto <;>
        simp [hasSuccessToast, isSuccessToastEv, invalidDesktopToast, failureToast]
  | some n =>
      by_cases hn : n < 1
      · cases auto <;>
          simp [hn, hasSuccessToast, isSuccessToastEv, invalidDesktopToast, failureToast]
      · cases auto with
        | ret raw =>
            simp [hn, keysAfter, hasSuccessToast_cons, isSuccessToastEv,
              movingToast, animatedToast, keysResult_hasSuccess]
        | thrown m =>
            simp [hn, keysAfter, hasSuccessToast_cons, isSuccessToastEv,
              movingToast, animatedToast, commonCatch_hasSuccess]

lemma keys_hasFailure (s : String) (auto : AutoOutcome) :
    hasFailureToast (desktopKeys s auto) = !(!rejects s && trimmedSuccess auto) := by
  unfold desktopKeys rejects trimmedSuccess
  cases h : jsParseInt s with
  | none =>
      cases auto <;>
        simp [hasFailureToast, isFailureToastEv, invalidDesktopToast, failureToast]
  | some n =>
      by_cases hn : n < 1
      · cases auto <;>
          simp [hn, hasFailureToast, isFailureToastEv, invalidDesktopToast, failureToast]
      · cases auto with
        | ret raw =>
            simp [hn, keysAfter, hasFailureToast_cons, isFailureToastEv,
              movingToast, animatedToast, keysResult_hasFailure]
        | thrown m =>
            simp [hn, keysAfter, hasFailureToast_cons, isFailureToastEv,
              movingToast, animatedToast, commonCatch_hasFailure]

lemma menuSimple_hasSuccess (s : String) (auto : AutoOutcome) :
    hasSuccessToast (desktopMenuSimple s auto) = (!rejects s && trimmedSuccess auto) := by
  unfold desktopMenuSimple rejects trimmedSuccess
  cases h : jsParseInt s with
  | none =>
      cases auto <;>
        simp [hasSuccessToast, isSuccessToastEv, invalidDesktopToast, failureToast]
  | some n =>
      by_cases hn : n < 1
      · cases auto <;>
          simp [hn, hasSuccessToast, isSuccessToastEv, invalidDesktopToast, failureToast]
      · cases auto with
        | ret raw =>
            simp [hn, menuSimpleAfter, hasSuccessToast_cons, isSuccessToastEv,
              movingToast, animatedToast, menuSimpleResult_hasSuccess]
        | thrown m =>
            simp [hn, menuSimpleAfter, hasSuccessToast_cons, isSuccessToastEv,
              movingToast, animatedToast, simpleCatch_hasSuccess]

lemma menuSimple_hasFailure (s : String) (auto : AutoOutcome) :
    hasFailureToast (desktopMenuSimple s auto) = !(!rejects s && trimmedSuccess auto) := by
  unfold desktopMenuSimple rejects trimmedSuccess
  cases h : jsParseInt s with
  | none =>
      cases auto <;>
        simp [hasFailureToast, isFailureToastEv, invalidDesktopToast, failureToast]
  | some n =>
      by_cases hn : n < 1
      · cases auto <;>
          simp [hn, hasFailureToast, isFailureToastEv, invalidDesktopToast, failureToast]
      · cases auto with
        | ret raw =>
            simp [hn, menuSimpleAfter, hasFailureToast_cons, isFailureToastEv,
              movingToast, animatedToast, menuSimpleResult_hasFailure]
        | thrown m =>
            simp [hn, menuSimpleAfter, hasFailureToast_cons, isFailureToastEv,
              movingToast, animatedToast, simpleCatch_hasFailure]

lemma relative_hasSuccess (s : String) (auto : AutoOutcome) :
    hasSuccessToast (desktopRelative s auto) = (!rejects s && trimmedSuccess auto) := by
  unfold desktopRelative rejects trimmedSuccess
  cases h : jsParseInt s with
  | none =>
      cases auto <;>
        simp [hasSuccessToast, isSuccessToastEv, invalidDesktopToast, failureToast]
  | some n =>
      by_cases hn : n < 1
      · cases auto <;>
          simp [hn, hasSuccessToast, isSuccessToastEv, invalidDesktopToast, failureToast]
      · cases auto with
        | ret raw =>
            simp [hn, relativeAfter, hasSuccessToast_cons, isSuccessToastEv,
              movingToast, animatedToast, relativeResult_hasSuccess]
        | thrown m =>
            simp [hn, relativeAfter, hasSuccessToast_cons, isSuccessToastEv,
              movingToast, animatedToast, commonCatch_hasSuccess]

lemma relative_hasFailure (s : String) (auto : AutoOutcome) :
    hasFailureToast (desktopRelative s auto) = !(!rejects s && trimmedSuccess auto) := by
  unfold desktopRelative rejects trimmedSuccess
  cases h : jsParseInt s with
  | none =>
      cases auto <;>
        simp [hasFailureToast, isFailureToastEv, invalidDesktopToast, failureToast]
  | some n =>
      by_cases hn : n < 1
      · cases auto <;>
          simp [hn, hasFailureToast, isFailureToastEv, invalidDesktopToast, failureToast]
      · cases auto with
        | ret raw =>
            simp [hn, relativeAfter, hasFailureToast_cons, isFailureToastEv,
              movingToast, animatedToast, relativeResult_hasFailure]
        | thrown m =>
            simp [hn, relativeAfter, hasFailureToast_cons, isFailureToastEv,
              movingToast, animatedToast, commonCatch_hasFailure]

lemma windowMenu_hasSuccess (s : String) (auto : AutoOutcome) :
    hasSuccessToast (desktopWindowMenu s auto) = (!rejects s && trimmedSuccess auto) := by
  unfold desktopWindowMenu rejects trimmedSuccess
  cases h : jsParseInt s with
  | none =>
      cases auto <;>
        simp [hasSuccessToast, isSuccessToastEv, invalidDesktopToast, failureToast]
  | some n =>
      by_cases hn : n < 1
      · cases auto <;>
          simp [hn, hasSuccessToast, isSuccessToastEv, invalidDesktopToast, failureToast]
      · cases auto with
        | ret raw =>
            simp [hn, windowMenuAfter, hasSuccessToast_cons, isSuccessToastEv,
              movingToast, animatedToast, windowMenuResult_hasSuccess]
        | thrown m =>
            simp [hn, windowMenuAfter, hasSuccessToast_cons, isSuccessToastEv,
              movingToast, animatedToast, simpleCatch_hasSuccess]

lemma windowMenu_hasFailure (s : String) (auto : AutoOutcome) :
    hasFailureToast (desktopWindowMenu s auto) = !(!rejects s && trimmedSuccess auto) := by
  unfold desktopWindowMenu rejects trimmedSuccess
  cases h : jsParseInt s with
  | none =>
      cases auto <;>
        simp [hasFailureToast, isFailureToastEv, invalidDesktopToast, failureToast]
  | some n =>
      by_cases hn : n < 1
      · cases auto <;>
          simp [hn, hasFailureToast, isFailureToastEv, invalidDesktopToast, failureToast]
      · cases auto with
        | ret raw =>
            simp [hn, windowMenuAfter, hasFailureToast_cons, isFailureToastEv,
              movingToast, animatedToast, windowMenuResult_hasFailure]
        | thrown m =>
            simp [hn, windowMenuAfter, hasFailureToast_cons, isFailureToastEv,
              movingToast, animatedToast, simpleCatch_hasFailure]

lemma dock_hasSuccess (s : String) (auto : AutoOutcome) :
    hasSuccessToast (desktopDock s auto) = (!rejects s && trimmedSuccess auto) := by
  unfold desktopDock rejects trimmedSuccess
  cases h : jsParseInt s with
  | none =>
      cases auto <;>
        simp [hasSuccessToast, isSuccessToastEv, invalidDesktopToast, failureToast]
  | some n =>
      by_cases hn : n < 1
      · cases auto <;>
          simp [hn, hasSuccessToast, isSuccessToastEv, invalidDesktopToast, failureToast]
      · cases auto with
        | ret raw =>
            simp [hn, dockAfter, hasSuccessToast_cons, isSuccessToastEv,
              movingToast, animatedToast, dockResult_hasSuccess]
        | thrown m =>
            simp [hn, dockAfter, hasSuccessToast_cons, isSuccessToastEv,
              movingToast, animatedToast, commonCatch_hasSuccess]

lemma dock_hasFailure (s : String) (auto : AutoOutcome) :
    hasFailureToast (desktopDock s auto) = !(!rejects s && trimmedSuccess auto) := by
  unfold desktopDock rejects trimmedSuccess
  cases h : jsParseInt s with
  | none =>
      cases auto <;>
        simp [hasFailureToast, isFailureToastEv, invalidDesktopToast, failureToast]
  | some n =>
      by_cases hn : n < 1
      · cases auto <;>
          simp [hn, hasFailureToast, isFailureToastEv, invalidDesktopToast, failureToast]
      · cases auto with
        | ret raw =>
            simp [hn, dockAfter, hasFailureToast_cons, isFailureToastEv,
              movingToast, animatedToast, dockResult_hasFailure]
        | thrown m =>
            simp [hn, dockAfter, hasFailureToast_cons, isFailureToastEv,
              movingToast, animatedToast, commonCatch_hasFailure]

lemma assignTo_hasSuccess (s : String) (auto : AutoOutcome) :
    hasSuccessToast (desktopAssignTo s auto) = (!rejects s && trimmedSuccess auto) := by
  unfold desktopAssignTo rejects trimmedSuccess
  cases h : jsParseInt s with
  | none =>
      cases auto <;>
        simp [hasSuccessToast, isSuccessToastEv, invalidDesktopToast, failureToast]
  | some n =>
      by_cases hn : n < 1
      · cases auto <;>
          simp [hn, hasSuccessToast, isSuccessToastEv, invalidDesktopToast, failureToast]
      · cases auto with
        | ret raw =>
            simp [hn, assignToAfter, hasSuccessToast_cons, isSuccessToastEv,
              movingToast, animatedToast, assignToResult_hasSuccess]
        | thrown m =>
            simp [hn, assignToAfter, hasSuccessToast_cons, isSuccessToastEv,
              movingToast, animatedToast, commonCatch_hasSuccess]

lemma assignTo_hasFailure (s : String) (auto : AutoOutcome) :
    hasFailureToast (desktopAssignTo s auto) = !(!rejects s && trimmedSuccess auto) := by
  unfold desktopAssignTo rejects trimmedSuccess
  cases h : jsParseInt s with
  | none =>
      cases auto <;>
        simp [hasFailureToast, isFailureToastEv, invalidDesktopToast, failureToast]
  | some n =>
      by_cases hn : n < 1
      · cases auto <;>
          simp [hn, hasFailureToast, isFailureToastEv, invalidDesktopToast, failureToast]
      · cases auto with
        | ret raw =>
            simp [hn, assignToAfter, hasFailureToast_cons, isFailureToastEv,
              movingToast, animatedToast, assignToResult_hasFailure]
        | thrown m =>
            simp [hn, assignToAfter, hasFailureToast_cons, isFailureToastEv,
              movingToast, animatedToast, commonCatch_hasFailure]

lemma jxa_hasSuccess (s td : String) (now : Nat) (ok : Bool) (auto : AutoOutcome) :
    hasSuccessToast (desktopJxa s td now ok auto) = (!rejects s && jxaSuccess auto) := by
  unfold desktopJxa rejects jxaSuccess
  cases h : jsParseInt s with
  | none =>
      cases auto <;>
        simp [hasSuccessToast, isSuccessToastEv, invalidDesktopToast, failureToast]
  | some n =>
      by_cases hn : n < 1
      · cases auto <;>
          simp [hn, hasSuccessToast, isSuccessToastEv, invalidDesktopToast, failureToast]
      · cases auto with
        | ret raw =>
            simp [hn, jxaAfter, hasSuccessToast_cons, isSuccessToastEv,
              movingToast, animatedToast, successToast, hasSuccessToast]
        | thrown m =>
            simp [hn, jxaAfter, hasSuccessToast_cons, isSuccessToastEv,
              movingToast, animatedToast, jxaCatch_hasSuccess]

lemma jxa_hasFailure (s td : String) (now : Nat) (ok : Bool) (auto : AutoOutcome) :
    hasFailureToast (desktopJxa s td now ok auto) = !(!rejects s && jxaSuccess auto) := by
  unfold desktopJxa rejects jxaSuccess
  cases h : jsParseInt s with
  | none =>
      cases auto <;>
        simp [hasFailureToast, isFailureToastEv, invalidDesktopToast, failureToast]
  | some n =>
      by_cases hn : n < 1
      · cases auto <;>
          simp [hn, hasFailureToast, isFailureToastEv, invalidDesktopToast, failureToast]
      · cases auto with
        | ret raw =>
            simp [hn, jxaAfter, hasFailureToast_cons, isFailureToastEv,
              movingToast, animatedToast, successToast, hasFailureToast]
        | thrown m =>
            simp [hn, jxaAfter, hasFailureToast_cons, isFailureToastEv,
              movingToast, animatedToast, jxaCatch_hasFailure]

lemma sweep_hasSuccess (s : String) (auto : AutoOutcome) :
    hasSuccessToast (desktopSweep s auto) = (!rejects s && trimmedSuccess auto) := by
  unfold desktopSweep rejects trimmedSuccess
  cases h : jsParseInt s with
  | none =>
      cases auto <;>
        simp [hasSuccessToast, isSuccessToastEv, invalidDesktopToast, failureToast]
  | some n =>
      by_cases hn : n < 1
      · cases auto <;>
          simp [hn, hasSuccessToast, isSuccessToastEv, invalidDesktopToast, failureToast]
      · cases auto with
        | ret raw =>
            simp [hn, sweepAfter, hasSuccessToast_cons, isSuccessToastEv,
              movingToast, animatedToast, sweepResult_hasSuccess]
        | thrown m =>
            simp [hn, sweepAfter, hasSuccessToast_cons, isSuccessToastEv,
              movingToast, animatedToast, commonCatch_hasSuccess]

lemma sweep_hasFailure (s : String) (auto : AutoOutcome) :
    hasFailureToast (desktopSweep s auto) = !(!rejects s && trimmedSuccess auto) := by
  unfold desktopSweep rejects trimmedSuccess
  cases h : jsParseInt s with
  | none =>
      cases auto <;>
        simp [hasFailureToast, isFailureToastEv, invalidDesktopToast, failureToast]
  | some n =>
      by_cases hn : n < 1
      · cases auto <;>
          simp [hn, hasFailureToast, isFailureToastEv, invalidDesktopToast, failureToast]
      · cases auto with
        | ret raw =>
            simp [hn, sweepAfter, hasFailureToast_cons, isFailureToastEv,
              movingToast, animatedToast, sweepResult_hasFailure]
        | thrown m =>
            simp [hn, sweepAfter, hasFailureToast_cons, isFailureToastEv,
              movingToast, animatedToast, commonCatch_hasFailure]

/-- C3: Every run of every command reports an outcome via a toast: for
every argument and every automation outcome (a returned string or a thrown
exception), the trace contains a Success toast exactly when the input is
valid and the result satisfies the command's own success condition
(`displaySuccess`/`menuFallbackSuccess`/`trimmedSuccess`/`jxaSuccess`,
read off the respective result-handling code), and a Failure toast in
every other case — including exceptions caught by the try/catch. -/
theorem c3_outcome_reporting (s : String) (auto : AutoOutcome) (td : String)
    (now : Nat) (ok : Bool) :
    (reportsOutcome (moveToDisplay s auto) = true
      ∧ hasSuccessToast (moveToDisplay s auto) = (!rejects s && displaySuccess auto)
      ∧ hasFailureToast (moveToDisplay s auto) = !(!rejects s && displaySuccess auto))
    ∧ (reportsOutcome (desktopMenuFallback s auto) = true
      ∧ hasSuccessToast (desktopMenuFallback s auto) = (!rejects s && menuFallbackSuccess auto)
      ∧ hasFailureToast (desktopMenuFallback s auto) = !(!rejects s && menuFallbackSuccess auto))
    ∧ (reportsOutcome (desktopKeys s auto) = true
      ∧ hasSuccessToast (desktopKeys s auto) = (!rejects s && trimmedSuccess auto)
      ∧ hasFailureToast (desktopKeys s auto) = !(!rejects s && trimmedSuccess auto))
    ∧ (reportsOutcome (desktopMenuSimple s auto) = true
      ∧ hasSuccessToast (desktopMenuSimple s auto) = (!rejects s && trimmedSuccess auto)
      ∧ hasFailureToast (desktopMenuSimple s auto) = !(!rejects s && trimmedSuccess auto))
    ∧ (reportsOutcome (desktopRelative s auto) = true
      ∧ hasSuccessToast (desktopRelative s auto) = (!rejects s && trimmedSuccess auto)
      ∧ hasFailureToast (desktopRelative s auto) = !(!rejects s && trimmedSuccess auto))
    ∧ (reportsOutcome (desktopWindowMenu s auto) = true
      ∧ hasSuccessToast (desktopWindowMenu s auto) = (!rejects s && trimmedSuccess auto)
      ∧ hasFailureToast (desktopWindowMenu s auto) = !(!rejects s && trimmedSuccess auto))
    ∧ (reportsOutcome (desktopDock s auto) = true
      ∧ hasSuccessToast (desktopDock s auto) = (!rejects s && trimmedSuccess auto)
      ∧ hasFailureToast (desktopDock s auto) = !(!rejects s && trimmedSuccess auto))
    ∧ (reportsOutcome (desktopAssignTo s auto) = true
      ∧ hasSuccessToast (desktopAssignTo s auto) = (!rejects s && trimmedSuccess auto)
      ∧ hasFailureToast (desktopAssignTo s auto) = !(!rejects s && trimmedSuccess auto))
    ∧ (reportsOutcome (desktopJxa s td now ok auto) = true
      ∧ hasSuccessToast (desktopJxa s td now ok auto) = (!rejects s && jxaSuccess auto)
      ∧ hasFailureToast (desktopJxa s td now ok auto) = !(!rejects s && jxaSuccess auto))
    ∧ (reportsOutcome (desktopSweep s auto) = true
      ∧ hasSuccessToast (desktopSweep s auto) = (!rejects s && trimmedSuccess auto)
      ∧ hasFailureToast (desktopSweep s auto) = !(!rejects s && trimmedSuccess auto)) :=
  ⟨⟨reports_of _ _ (display_hasSuccess s auto) (display_hasFailure s auto),
    display_hasSuccess s auto, display_hasFailure s auto⟩,
   ⟨reports_of _ _ (menuFallback_hasSuccess s auto) (menuFallback_hasFailure s auto),
    menuFallback_hasSuccess s auto, menuFallback_hasFailure s auto⟩,
   ⟨reports_of _ _ (keys_hasSuccess s auto) (keys_hasFailure s auto),
    keys_hasSuccess s auto, keys_hasFailure s auto⟩,
   ⟨reports_of _ _ (menuSimple_hasSuccess s auto) (menuSimple_hasFailure s auto),
    menuSimple_hasSuccess s auto, menuSimple_hasFailure s auto⟩,
   ⟨reports_of _ _ (relative_hasSuccess s auto) (relative_hasFailure s auto),
    relative_hasSuccess s auto, relative_hasFailure s auto⟩,
   ⟨reports_of _ _ (windowMenu_hasSuccess s auto) (windowMenu_hasFailure s auto),
    windowMenu_hasSuccess s auto, windowMenu_hasFailure s auto⟩,
   ⟨reports_of _ _ (dock_hasSuccess s auto) (dock_hasFailure s auto),
    dock_hasSuccess s auto, dock_hasFailure s auto⟩,
   ⟨reports_of _ _ (assignTo_hasSuccess s auto) (assignTo_hasFailure s auto),
    assignTo_hasSuccess s auto, assignTo_hasFailure s auto⟩,
   ⟨reports_of _ _ (jxa_hasSuccess s td now ok auto) (jxa_hasFailure s td now ok auto),
    jxa_hasSuccess s td now ok auto, jxa_hasFailure s td now ok auto⟩,
   ⟨reports_of _ _ (sweep_hasSuccess s auto) (sweep_hasFailure s auto),
    sweep_hasSuccess s auto, sweep_hasFailure s auto⟩⟩
/-!
## Helper lemmas: automation invocations in a trace
-/

lemma runScriptCount_cons (e : Event) (tr : List Event) :
    runScriptCount (e :: tr) = (if isRunScriptEv e then 1 else 0) + runScriptCount tr := by
  unfold runScriptCount
  rw [List.filter_cons]
  split_ifs <;> simp [Nat.add_comm]

lemma displayAfter_noScript (n : Int) (auto : AutoOutcome) :
    runScriptCount (displayAfter n auto) = 0 := by
  cases auto with
  | ret r =>
      unfold displayAfter displayResultEvents
      try dsimp only
      split_ifs <;> rfl
  | thrown m => rfl

lemma menuFallbackAfter_noScript (n : Int) (auto : AutoOutcome) :
    runScriptCount (menuFallbackAfter n auto) = 0 := by
  cases auto with
  | ret r =>
      unfold menuFallbackAfter menuFallbackResultEvents
      try dsimp only
      split_ifs <;> rfl
  | thrown m => rfl

lemma commonCatch_noScript (d m : String) :
    runScriptCount (commonCatchEvents d m) = 0 := by
  unfold commonCatchEvents
  try dsimp only
  split_ifs <;> rfl

lemma simpleCatch_noScript (m : String) :
    runScriptCount (simpleCatchEvents m) = 0 := by
  unfold simpleCatchEvents
  try dsimp only
  split_ifs <;> rfl

lemma keysAfter_noScript (n : Int) (auto : AutoOutcome) :
    runScriptCount (keysAfter n auto) = 0 := by
  cases auto with
  | ret raw =>
      unfold keysAfter keysResultEvents
      try dsimp only
      split_ifs <;> rfl
  | thrown m => exact commonCatch_noScript _ _

lemma menuSimpleAfter_noScript (n : Int) (auto : AutoOutcome) :
    runScriptCount (menuSimpleAfter n auto) = 0 := by
  cases auto with
  | ret raw =>
      unfold menuSimpleAfter menuSimpleResultEvents
      try dsimp only
      split_ifs <;> first | rfl | exact simpleCatch_noScript _
  | thrown m => exact simpleCatch_noScript _

lemma relativeAfter_noScript (n : Int) (auto : AutoOutcome) :
    runScriptCount (relativeAfter n auto) = 0 := by
  cases auto with
  | ret raw =>
      unfold relativeAfter relativeResultEvents
      try dsimp only
      split_ifs <;> rfl
  | thrown m => exact commonCatch_noScript _ _

lemma windowMenuAfter_noScript (n : Int) (auto : AutoOutcome) :
    runScriptCount (windowMenuAfter n auto) = 0 := by
  cases auto with
  | ret raw =>
      unfold windowMenuAfter windowMenuResultEvents
      try dsimp only
      split_ifs <;> first | rfl | exact simpleCatch_noScript _
  | thrown m => exact simpleCatch_noScript _

lemma dockAfter_noScript (n : Int) (auto : AutoOutcome) :
    runScriptCount (dockAfter n auto) = 0 := by
  cases auto with
  | ret raw =>
      unfold dockAfter dockResultEvents
      try dsimp only
      split_ifs <;> rfl
  | thrown m => exact commonCatch_noScript _ _

lemma assignToAfter_noScript (n : Int) (auto : AutoOutcome) :
    runScriptCount (assignToAfter n auto) = 0 := by
  cases auto with
  | ret raw =>
      unfold assignToAfter assignToResultEvents
      try dsimp only
      split_ifs <;> rfl
  | thrown m => exact commonCatch_noScript _ _

lemma jxaAfter_noScript (n : Int) (p : String) (ok : Bool) (auto : AutoOutcome) :
    runScriptCount (jxaAfter n p ok auto) = 0 := by
  cases auto with
  | ret raw => rfl
  | thrown m =>
      unfold jxaAfter jxaCatchEvents
      try dsimp only
      split_ifs <;> rfl

lemma sweepAfter_noScript (n : Int) (auto : AutoOutcome) :
    runScriptCount (sweepAfter n auto) = 0 := by
  cases auto with
  | ret raw =>
      unfold sweepAfter sweepResultEvents
      try dsimp only
      split_ifs <;> rfl
  | thrown m => exact commonCatch_noScript _ _

/-!
## Helper lemmas: the linear pipeline shape of each command
-/

lemma display_pipeline (s : String) (auto : AutoOutcome) (n : Int)
    (h : jsParseInt s = some n) (hn : ¬ n < 1) :
    moveToDisplay s auto =
      animatedToast "Moving Window..." ("Moving to Display " ++ numStr n) ::
      Event.runScript (displayScript n) :: displayAfter n auto := by
  unfold moveToDisplay
  rw [h]
  dsimp only
  rw [if_neg hn]

lemma menuFallback_pipeline (s : String) (auto : AutoOutcome) (n : Int)
    (h : jsParseInt s = some n) (hn : ¬ n < 1) :
    desktopMenuFallback s auto =
      Event.runScript (menuFallbackScript n) :: menuFallbackAfter n auto := by
  unfold desktopMenuFallback
  rw [h]
  dsimp only
  rw [if_neg hn]

lemma keys_pipeline (s : String) (auto : AutoOutcome) (n : Int)
    (h : jsParseInt s = some n) (hn : ¬ n < 1) :
    desktopKeys s auto =
      Event.closeMain :: movingToast n ::
      Event.runScript (keysScript n) :: keysAfter n auto := by
  unfold desktopKeys
  rw [h]
  dsimp only
  rw [if_neg hn]

lemma menuSimple_pipeline (s : String) (auto : AutoOutcome) (n : Int)
    (h : jsParseInt s = some n) (hn : ¬ n < 1) :
    desktopMenuSimple s auto =
      Event.closeMain :: movingToast n ::
      Event.runScript (menuSimpleScript n) :: menuSimpleAfter n auto := by
  unfold desktopMenuSimple
  rw [h]
  dsimp only
  rw [if_neg hn]

lemma relative_pipeline (s : String) (auto : AutoOutcome) (n : Int)
    (h : jsParseInt s = some n) (hn : ¬ n < 1) :
    desktopRelative s auto =
      Event.closeMain :: movingToast n ::
      Event.runScript (relativeScript n) :: relativeAfter n auto := by
  unfold desktopRelative
  rw [h]
  dsimp only
  rw [if_neg hn]

lemma windowMenu_pipeline (s : String) (auto : AutoOutcome) (n : Int)
    (h : jsParseInt s = some n) (hn : ¬ n < 1) :
    desktopWindowMenu s auto =
      Event.closeMain :: movingToast n ::
      Event.runScript (windowMenuScript n) :: windowMenuAfter n auto := by
  unfold desktopWindowMenu
  rw [h]
  dsimp only
  rw [if_neg hn]

lemma dock_pipeline (s : String) (auto : AutoOutcome) (n : Int)
    (h : jsParseInt s = some n) (hn : ¬ n < 1) :
    desktopDock s auto =
      Event.closeMain :: movingToast n ::
      Event.runScript (dockScript n) :: dockAfter n auto := by
  unfold desktopDock
  rw [h]
  dsimp only
  rw [if_neg hn]

lemma assignTo_pipeline (s : String) (auto : AutoOutcome) (n : Int)
    (h : jsParseInt s = some n) (hn : ¬ n < 1) :
    desktopAssignTo s auto =
      Event.closeMain :: movingToast n ::
      Event.runScript (assignToScript n) :: assignToAfter n auto := by
  unfold desktopAssignTo
  rw [h]
  dsimp only
  rw [if_neg hn]

lemma jxa_pipeline (s td : String) (now : Nat) (ok : Bool) (auto : AutoOutcome) (n : Int)
    (h : jsParseInt s = some n) (hn : ¬ n < 1) :
    desktopJxa s td now ok auto =
      movingToast n ::
      Event.writeTmpFile (jxaTmpPath td now) (jxaScriptText n) ::
      Event.runScript (jxaScriptText n) :: jxaAfter n (jxaTmpPath td now) ok auto := by
  unfold desktopJxa
  rw [h]
  dsimp only
  rw [if_neg hn]

lemma sweep_pipeline (s : String) (auto : AutoOutcome) (n : Int)
    (h : jsParseInt s = some n) (hn : ¬ n < 1) :
    desktopSweep s auto =
      Event.closeMain :: movingToast n ::
      Event.runScript (sweepScript n) :: sweepAfter n auto := by
  unfold desktopSweep
  rw [h]
  dsimp only
  rw [if_neg hn]

/-!
## Helper lemmas: at most one automation invocation, none on rejection
-/

lemma display_scriptCounts (s : String) (auto : AutoOutcome) :
    runScriptCount (moveToDisplay s auto) ≤ 1
      ∧ (rejects s = true → runScriptCount (moveToDisplay s auto) = 0) := by
  unfold moveToDisplay rejects
  cases h : jsParseInt s with
  | none => simp [runScriptCount, isRunScriptEv, invalidDisplayToast, failureToast]
  | some n =>
      by_cases hn : n < 1
      · simp [hn, runScriptCount, isRunScriptEv, invalidDisplayToast, failureToast]
      · simp [hn, runScriptCount_cons, isRunScriptEv, animatedToast,
          displayAfter_noScript]

lemma menuFallback_scriptCounts (s : String) (auto : AutoOutcome) :
    runScriptCount (desktopMenuFallback s auto) ≤ 1
      ∧ (rejects s = true → runScriptCount (desktopMenuFallback s auto) = 0) := by
  unfold desktopMenuFallback rejects
  cases h : jsParseInt s with
  | none => simp [runScriptCount, isRunScriptEv, invalidDesktopToast, failureToast]
  | some n =>
      by_cases hn : n < 1
      · simp [hn, runScriptCount, isRunScriptEv, invalidDesktopToast, failureToast]
      · simp [hn, runScriptCount_cons, isRunScriptEv, menuFallbackAfter_noScript]

lemma keys_scriptCounts (s : String) (auto : AutoOutcome) :
    runScriptCount (desktopKeys s auto) ≤ 1
      ∧ (rejects s = true → runScriptCount (desktopKeys s auto) = 0) := by
  unfold desktopKeys rejects
  cases h : jsParseInt s with
  | none => simp [runScriptCount, isRunScriptEv, invalidDesktopToast, failureToast]
  | some n =>
      by_cases hn : n < 1
      · simp [hn, runScriptCount, isRunScriptEv, invalidDesktopToast, failureToast]
      · simp [hn, runScriptCount_cons, isRunScriptEv, movingToast, animatedToast,
          keysAfter_noScript]

lemma menuSimple_scriptCounts (s : String) (auto : AutoOutcome) :
    runScriptCount (desktopMenuSimple s auto) ≤ 1
      ∧ (rejects s = true → runScriptCount (desktopMenuSimple s auto) = 0) := by
  unfold desktopMenuSimple rejects
  cases h : jsParseInt s with
  | none => simp [runScriptCount, isRunScriptEv, invalidDesktopToast, failureToast]
  | some n =>
      by_cases hn : n < 1
      · simp [hn, runScriptCount, isRunScriptEv, invalidDesktopToast, failureToast]
      · simp [hn, runScriptCount_cons, isRunScriptEv, movingToast, animatedToast,
          menuSimpleAfter_noScript]

lemma relative_scriptCounts (s : String) (auto : AutoOutcome) :
    runScriptCount (desktopRelative s auto) ≤ 1
      ∧ (rejects s = true → runScriptCount (desktopRelative s auto) = 0) := by
  unfold desktopRelative rejects
  cases h : jsParseInt s with
  | none => simp [runScriptCount, isRunScriptEv, invalidDesktopToast, failureToast]
  | some n =>
      by_cases hn : n < 1
      · simp [hn, runScriptCount, isRunScriptEv, invalidDesktopToast, failureToast]
      · simp [hn, runScriptCount_cons, isRunScriptEv, movingToast, animatedToast,
          relativeAfter_noScript]

lemma windowMenu_scriptCounts (s : String) (auto : AutoOutcome) :
    runScriptCount (desktopWindowMenu s auto) ≤ 1
      ∧ (rejects s = true → runScriptCount (desktopWindowMenu s auto) = 0) := by
  unfold desktopWindowMenu rejects
  cases h : jsParseInt s with
  | none => simp [runScriptCount, isRunScriptEv, invalidDesktopToast, failureToast]
  | some n =>
      by_cases hn : n < 1
      · simp [hn, runScriptCount, isRunScriptEv, invalidDesktopToast, failureToast]
      · simp [hn, runScriptCount_cons, isRunScriptEv, movingToast, animatedToast,
          windowMenuAfter_noScript]

lemma dock_scriptCounts (s : String) (auto : AutoOutcome) :
    runScriptCount (desktopDock s auto) ≤ 1
      ∧ (rejects s = true → runScriptCount (desktopDock s auto) = 0) := by
  unfold desktopDock rejects
  cases h : jsParseInt s with
  | none => simp [runScriptCount, isRunScriptEv, invalidDesktopToast, failureToast]
  | some n =>
      by_cases hn : n < 1
      · simp [hn, runScriptCount, isRunScriptEv, invalidDesktopToast, failureToast]
      · simp [hn, runScriptCount_cons, isRunScriptEv, movingToast, animatedToast,
          dockAfter_noScript]

lemma assignTo_scriptCounts (s : String) (auto : AutoOutcome) :
    runScriptCount (desktopAssignTo s auto) ≤ 1
      ∧ (rejects s = true → runScriptCount (desktopAssignTo s auto) = 0) := by
  unfold desktopAssignTo rejects
  cases h : jsParseInt s with
  | none => simp [runScriptCount, isRunScriptEv, invalidDesktopToast, failureToast]
  | some n =>
      by_cases hn : n < 1
      · simp [hn, runScriptCount, isRunScriptEv, invalidDesktopToast, failureToast]
      · simp [hn, runScriptCount_cons, isRunScriptEv, movingToast, animatedToast,
          assignToAfter_noScript]

lemma jxa_scriptCounts (s td : String) (now : Nat) (ok : Bool) (auto : AutoOutcome) :
    runScriptCount (desktopJxa s td now ok auto) ≤ 1
      ∧ (rejects s = true → runScriptCount (desktopJxa s td now ok auto) = 0) := by
  unfold desktopJxa rejects
  cases h : jsParseInt s with
  | none => simp [runScriptCount, isRunScriptEv, invalidDesktopToast, failureToast]
  | some n =>
      by_cases hn : n < 1
      · simp [hn, runScriptCount, isRunScriptEv, invalidDesktopToast, failureToast]
      · simp [hn, runScriptCount_cons, isRunScriptEv, movingToast, animatedToast,
          jxaAfter_noScript]

lemma sweep_scriptCounts (s : String) (auto : AutoOutcome) :
    runScriptCount (desktopSweep s auto) ≤ 1
      ∧ (rejects s = true → runScriptCount (desktopSweep s auto) = 0) := by
  unfold desktopSweep rejects
  cases h : jsParseInt s with
  | none => simp [runScriptCount, isRunScriptEv, invalidDesktopToast, failureToast]
  | some n =>
      by_cases hn : n < 1
      · simp [hn, runScriptCount, isRunScriptEv, invalidDesktopToast, failureToast]
      · simp [hn, runScriptCount_cons, isRunScriptEv, movingToast, animatedToast,
          sweepAfter_noScript]

/-- C4: Every run of every command is one linear pipeline: the
automation is invoked at most once; a rejected argument never reaches the
shell-out (no automation invocation at all); and on a valid argument the
trace is exactly a validation-determined prefix (independent of the
automation outcome), then the single `runScript` event, then the
result-handling events (`...After`), so result pattern-matching happens
only after the shell-out returns. -/
theorem c4_linear_pipeline (s : String) (auto : AutoOutcome) (td : String)
    (now : Nat) (ok : Bool) (n : Int) :
    (runScriptCount (moveToDisplay s auto) ≤ 1
      ∧ (rejects s = true → runScriptCount (moveToDisplay s auto) = 0)
      ∧ (jsParseInt s = some n → ¬ n < 1 →
          moveToDisplay s auto =
            animatedToast "Moving Window..." ("Moving to Display " ++ numStr n) ::
            Event.runScript (displayScript n) :: displayAfter n auto))
    ∧ (runScriptCount (desktopMenuFallback s auto) ≤ 1
      ∧ (rejects s = true → runScriptCount (desktopMenuFallback s auto) = 0)
      ∧ (jsParseInt s = some n → ¬ n < 1 →
          desktopMenuFallback s auto =
            Event.runScript (menuFallbackScript n) :: menuFallbackAfter n auto))
    ∧ (runScriptCount (desktopKeys s auto) ≤ 1
      ∧ (rejects s = true → runScriptCount (desktopKeys s auto) = 0)
      ∧ (jsParseInt s = some n → ¬ n < 1 →
          desktopKeys s auto =
            Event.closeMain :: movingToast n ::
            Event.runScript (keysScript n) :: keysAfter n auto))
    ∧ (runScriptCount (desktopMenuSimple s auto) ≤ 1
      ∧ (rejects s = true → runScriptCount (desktopMenuSimple s auto) = 0)
      ∧ (jsParseInt s = some n → ¬ n < 1 →
          desktopMenuSimple s auto =
            Event.closeMain :: movingToast n ::
            Event.runScript (menuSimpleScript n) :: menuSimpleAfter n auto))
    ∧ (runScriptCount (desktopRelative s auto) ≤ 1
      ∧ (rejects s = true → runScriptCount (desktopRelative s auto) = 0)
      ∧ (jsParseInt s = some n → ¬ n < 1 →
          desktopRelative s auto =
            Event.closeMain :: movingToast n ::
            Event.runScript (relativeScript n) :: relativeAfter n auto))
    ∧ (runScriptCount (desktopWindowMenu s auto) ≤ 1
      ∧ (rejects s = true → runScriptCount (desktopWindowMenu s auto) = 0)
      ∧ (jsParseInt s = some n → ¬ n < 1 →
          desktopWindowMenu s auto =
            Event.closeMain :: movingToast n ::
            Event.runScript (windowMenuScript n) :: windowMenuAfter n auto))
    ∧ (runScriptCount (desktopDock s auto) ≤ 1
      ∧ (rejects s = true → runScriptCount (desktopDock s auto) = 0)
      ∧ (jsParseInt s = some n → ¬ n < 1 →
          desktopDock s auto =
            Event.closeMain :: movingToast n ::
            Event.runScript (dockScript n) :: dockAfter n auto))
    ∧ (runScriptCount (desktopAssignTo s auto) ≤ 1
      ∧ (rejects s = true → runScriptCount (desktopAssignTo s auto) = 0)
      ∧ (jsParseInt s = some n → ¬ n < 1 →
          desktopAssignTo s auto =
            Event.closeMain :: movingToast n ::
            Event.runScript (assignToScript n) :: assignToAfter n auto))
    ∧ (runScriptCount (desktopJxa s td now ok auto) ≤ 1
      ∧ (rejects s = true → runScriptCount (desktopJxa s td now ok auto) = 0)
      ∧ (jsParseInt s = some n → ¬ n < 1 →
          desktopJxa s td now ok auto =
            movingToast n ::
            Event.writeTmpFile (jxaTmpPath td now) (jxaScriptText n) ::
            Event.runScript (jxaScriptText n) :: jxaAfter n (jxaTmpPath td now) ok auto))
    ∧ (runScriptCount (desktopSweep s auto) ≤ 1
      ∧ (rejects s = true → runScriptCount (desktopSweep s auto) = 0)
      ∧ (jsParseInt s = some n → ¬ n < 1 →
          desktopSweep s auto =
            Event.closeMain :: movingToast n ::
            Event.runScript (sweepScript n) :: sweepAfter n auto)) :=
  ⟨⟨(display_scriptCounts s auto).1, (display_scriptCounts s auto).2,
    fun h hn => display_pipeline s auto n h hn⟩,
   ⟨(menuFallback_scriptCounts s auto).1, (menuFallback_scriptCounts s auto).2,
    fun h hn => menuFallback_pipeline s auto n h hn⟩,
   ⟨(keys_scriptCounts s auto).1, (keys_scriptCounts s auto).2,
    fun h hn => keys_pipeline s auto n h hn⟩,
   ⟨(menuSimple_scriptCounts s auto).1, (menuSimple_scriptCounts s auto).2,
    fun h hn => menuSimple_pipeline s auto n h hn⟩,
   ⟨(relative_scriptCounts s auto).1, (relative_scriptCounts s auto).2,
    fun h hn => relative_pipeline s auto n h hn⟩,
   ⟨(windowMenu_scriptCounts s auto).1, (windowMenu_scriptCounts s auto).2,
    fun h hn => windowMenu_pipeline s auto n h hn⟩,
   ⟨(dock_scriptCounts s auto).1, (dock_scriptCounts s auto).2,
    fun h hn => dock_pipeline s auto n h hn⟩,
   ⟨(assignTo_scriptCounts s auto).1, (assignTo_scriptCounts s auto).2,
    fun h hn => assignTo_pipeline s auto n h hn⟩,
   ⟨(jxa_scriptCounts s td now ok auto).1, (jxa_scriptCounts s td now ok auto).2,
    fun h hn => jxa_pipeline s td now ok auto n h hn⟩,
   ⟨(sweep_scriptCounts s auto).1, (sweep_scriptCounts s auto).2,
    fun h hn => sweep_pipeline s auto n h hn⟩⟩

/-- Witness for C4 at the concrete run `desktopKeys "2" (ret "success")`. -/
theorem c4_witness :
    jsParseInt "2" = some 2 ∧ ¬ (2 : Int) < 1 ∧
      desktopKeys "2" (.ret "success") =
        Event.closeMain :: movingToast 2 ::
        Event.runScript (keysScript 2) :: keysAfter 2 (.ret "success") :=
  ⟨by decide, by decide,
   ((c4_linear_pipeline "2" (.ret "success") "/tmp" 0 true 2).2.2.1).2.2
     (by decide) (by decide)⟩
/-!
## Helper lemmas: the scripts executed by a run
-/

lemma scriptsOf_cons_none (e : Event) (tr : List Event) (h : scriptOfEv e = none) :
    scriptsOf (e :: tr) = scriptsOf tr := by
  simp [scriptsOf, List.filterMap_cons, h]

lemma scriptsOf_cons_some (e : Event) (tr : List Event) (x : String)
    (h : scriptOfEv e = some x) :
    scriptsOf (e :: tr) = x :: scriptsOf tr := by
  simp [scriptsOf, List.filterMap_cons, h]

lemma scriptsOf_toast (st : ToastStyle) (t m : String) (tr : List Event) :
    scriptsOf (.toast st t m :: tr) = scriptsOf tr := rfl

lemma scriptsOf_closeMain (tr : List Event) :
    scriptsOf (.closeMain :: tr) = scriptsOf tr := rfl

lemma scriptsOf_write (p c : String) (tr : List Event) :
    scriptsOf (.writeTmpFile p c :: tr) = scriptsOf tr := rfl

lemma scriptsOf_run (x : String) (tr : List Event) :
    scriptsOf (.runScript x :: tr) = x :: scriptsOf tr := rfl

lemma scriptOfEv_eq_none (e : Event) (h : isRunScriptEv e = false) :
    scriptOfEv e = none := by
  cases e <;> simp_all [isRunScriptEv, scriptOfEv]

lemma scriptsOf_nil_of_no_script (tr : List Event) (h : runScriptCount tr = 0) :
    scriptsOf tr = [] := by
  induction tr with
  | nil => rfl
  | cons e tr ih =>
      rw [runScriptCount_cons] at h
      by_cases he : isRunScriptEv e
      · simp [he] at h
      · have h' : runScriptCount tr = 0 := by simpa [he] using h
        rw [scriptsOf_cons_none e tr (scriptOfEv_eq_none e (by simpa using he))]
        exact ih h'

lemma rejects_of_lt (s : String) (n : Int) (h : jsParseInt s = some n) (hn : n < 1) :
    rejects s = true := by
  unfold rejects
  rw [h]
  simpa using hn

lemma display_scriptsOf_valid (s : String) (auto : AutoOutcome) (n : Int)
    (h : jsParseInt s = some n) (hn : ¬ n < 1) :
    scriptsOf (moveToDisplay s auto) = [displayScript n] := by
  rw [display_pipeline s auto n h hn]
  simp [animatedToast, movingToast, scriptsOf_toast, scriptsOf_closeMain,
    scriptsOf_write, scriptsOf_run,
    scriptsOf_nil_of_no_script _ (displayAfter_noScript n auto)]

lemma menuFallback_scriptsOf_valid (s : String) (auto : AutoOutcome) (n : Int)
    (h : jsParseInt s = some n) (hn : ¬ n < 1) :
    scriptsOf (desktopMenuFallback s auto) = [menuFallbackScript n] := by
  rw [menuFallback_pipeline s auto n h hn]
  simp [scriptsOf_run,
    scriptsOf_nil_of_no_script _ (menuFallbackAfter_noScript n auto)]

lemma keys_scriptsOf_valid (s : String) (auto : AutoOutcome) (n : Int)
    (h : jsParseInt s = some n) (hn : ¬ n < 1) :
    scriptsOf (desktopKeys s auto) = [keysScript n] := by
  rw [keys_pipeline s auto n h hn]
  simp [animatedToast, movingToast, scriptsOf_toast, scriptsOf_closeMain,
    scriptsOf_write, scriptsOf_run,
    scriptsOf_nil_of_no_script _ (keysAfter_noScript n auto)]

lemma menuSimple_scriptsOf_valid (s : String) (auto : AutoOutcome) (n : Int)
    (h : jsParseInt s = some n) (hn : ¬ n < 1) :
    scriptsOf (desktopMenuSimple s auto) = [menuSimpleScript n] := by
  rw [menuSimple_pipeline s auto n h hn]
  simp [animatedToast, movingToast, scriptsOf_toast, scriptsOf_closeMain,
    scriptsOf_write, scriptsOf_run,
    scriptsOf_nil_of_no_script _ (menuSimpleAfter_noScript n auto)]

lemma relative_scriptsOf_valid (s : String) (auto : AutoOutcome) (n : Int)
    (h : jsParseInt s = some n) (hn : ¬ n < 1) :
    scriptsOf (desktopRelative s auto) = [relativeScript n] := by
  rw [relative_pipeline s auto n h hn]
  simp [animatedToast, movingToast, scriptsOf_toast, scriptsOf_closeMain,
    scriptsOf_write, scriptsOf_run,
    scriptsOf_nil_of_no_script _ (relativeAfter_noScript n auto)]

lemma windowMenu_scriptsOf_valid (s : String) (auto : AutoOutcome) (n : Int)
    (h : jsParseInt s = some n) (hn : ¬ n < 1) :
    scriptsOf (desktopWindowMenu s auto) = [windowMenuScript n] := by
  rw [windowMenu_pipeline s auto n h hn]
  simp [animatedToast, movingToast, scriptsOf_toast, scriptsOf_closeMain,
    scriptsOf_write, scriptsOf_run,
    scriptsOf_nil_of_no_script _ (windowMenuAfter_noScript n auto)]

lemma dock_scriptsOf_valid (s : String) (auto : AutoOutcome) (n : Int)
    (h : jsParseInt s = some n) (hn : ¬ n < 1) :
    scriptsOf (desktopDock s auto) = [dockScript n] := by
  rw [dock_pipeline s auto n h hn]
  simp [animatedToast, movingToast, scriptsOf_toast, scriptsOf_closeMain,
    scriptsOf_write, scriptsOf_run,
    scriptsOf_nil_of_no_script _ (dockAfter_noScript n auto)]

lemma assignTo_scriptsOf_valid (s : String) (auto : AutoOutcome) (n : Int)
    (h : jsParseInt s = some n) (hn : ¬ n < 1) :
    scriptsOf (desktopAssignTo s auto) = [assignToScript n] := by
  rw [assignTo_pipeline s auto n h hn]
  simp [animatedToast, movingToast, scriptsOf_toast, scriptsOf_closeMain,
    scriptsOf_write, scriptsOf_run,
    scriptsOf_nil_of_no_script _ (assignToAfter_noScript n auto)]

lemma jxa_scriptsOf_valid (s td : String) (now : Nat) (ok : Bool) (auto : AutoOutcome)
    (n : Int) (h : jsParseInt s = some n) (hn : ¬ n < 1) :
    scriptsOf (desktopJxa s td now ok auto) = [jxaScriptText n] := by
  rw [jxa_pipeline s td now ok auto n h hn]
  simp [animatedToast, movingToast, scriptsOf_toast, scriptsOf_closeMain,
    scriptsOf_write, scriptsOf_run,
    scriptsOf_nil_of_no_script _ (jxaAfter_noScript n _ ok auto)]

lemma sweep_scriptsOf_valid (s : String) (auto : AutoOutcome) (n : Int)
    (h : jsParseInt s = some n) (hn : ¬ n < 1) :
    scriptsOf (desktopSweep s auto) = [sweepScript n] := by
  rw [sweep_pipeline s auto n h hn]
  simp [animatedToast, movingToast, scriptsOf_toast, scriptsOf_closeMain,
    scriptsOf_write, scriptsOf_run,
    scriptsOf_nil_of_no_script _ (sweepAfter_noScript n auto)]

lemma display_scriptsOf_reject (s : String) (auto : AutoOutcome) (h : rejects s = true) :
    scriptsOf (moveToDisplay s auto) = [] := by
  rw [(moveToDisplay_reject_iff s auto).mpr h]
  rfl

lemma menuFallback_scriptsOf_reject (s : String) (auto : AutoOutcome) (h : rejects s = true) :
    scriptsOf (desktopMenuFallback s auto) = [] := by
  rw [(desktopMenuFallback_reject_iff s auto).mpr h]
  rfl

lemma keys_scriptsOf_reject (s : String) (auto : AutoOutcome) (h : rejects s = true) :
    scriptsOf (desktopKeys s auto) = [] := by
  rw [(desktopKeys_reject_iff s auto).mpr h]
  rfl

lemma menuSimple_scriptsOf_reject (s : String) (auto : AutoOutcome) (h : rejects s = true) :
    scriptsOf (desktopMenuSimple s auto) = [] := by
  rw [(desktopMenuSimple_reject_iff s auto).mpr h]
  rfl

lemma relative_scriptsOf_reject (s : String) (auto : AutoOutcome) (h : rejects s = true) :
    scriptsOf (desktopRelative s auto) = [] := by
  rw [(desktopRelative_reject_iff s auto).mpr h]
  rfl

lemma windowMenu_scriptsOf_reject (s : String) (auto : AutoOutcome) (h : rejects s = true) :
    scriptsOf (desktopWindowMenu s auto) = [] := by
  rw [(desktopWindowMenu_reject_iff s auto).mpr h]
  rfl

lemma dock_scriptsOf_reject (s : String) (auto : AutoOutcome) (h : rejects s = true) :
    scriptsOf (desktopDock s auto) = [] := by
  rw [(desktopDock_reject_iff s auto).mpr h]
  rfl

lemma assignTo_scriptsOf_reject (s : String) (auto : AutoOutcome) (h : rejects s = true) :
    scriptsOf (desktopAssignTo s auto) = [] := by
  rw [(desktopAssignTo_reject_iff s auto).mpr h]
  rfl

lemma jxa_scriptsOf_reject (s td : String) (now : Nat) (ok : Bool) (auto : AutoOutcome)
    (h : rejects s = true) :
    scriptsOf (desktopJxa s td now ok auto) = [] := by
  rw [(desktopJxa_reject_iff s td now ok auto).mpr h]
  rfl

lemma sweep_scriptsOf_reject (s : String) (auto : AutoOutcome) (h : rejects s = true) :
    scriptsOf (desktopSweep s auto) = [] := by
  rw [(desktopSweep_reject_iff s auto).mpr h]
  rfl

/-- C5: The automation script text is a function solely of the parsed
numeric argument: for any two runs whose argument strings parse to the same
integer, each command executes exactly the same script text (and on a valid
value `n` that text is the fixed per-command template with `n`
interpolated; the JXA variant's script does not depend on the temp path or
timestamp either). -/
theorem c5_script_pure_function (s₁ s₂ : String) (n : Int)
    (auto₁ auto₂ : AutoOutcome) (td₁ td₂ : String) (now₁ now₂ : Nat)
    (ok₁ ok₂ : Bool)
    (h₁ : jsParseInt s₁ = some n) (h₂ : jsParseInt s₂ = some n) :
    (scriptsOf (moveToDisplay s₁ auto₁) = scriptsOf (moveToDisplay s₂ auto₂)
      ∧ (¬ n < 1 → scriptsOf (moveToDisplay s₁ auto₁) = [displayScript n]))
    ∧ (scriptsOf (desktopMenuFallback s₁ auto₁) = scriptsOf (desktopMenuFallback s₂ auto₂)
      ∧ (¬ n < 1 → scriptsOf (desktopMenuFallback s₁ auto₁) = [menuFallbackScript n]))
    ∧ (scriptsOf (desktopKeys s₁ auto₁) = scriptsOf (desktopKeys s₂ auto₂)
      ∧ (¬ n < 1 → scriptsOf (desktopKeys s₁ auto₁) = [keysScript n]))
    ∧ (scriptsOf (desktopMenuSimple s₁ auto₁) = scriptsOf (desktopMenuSimple s₂ auto₂)
      ∧ (¬ n < 1 → scriptsOf (desktopMenuSimple s₁ auto₁) = [menuSimpleScript n]))
    ∧ (scriptsOf (desktopRelative s₁ auto₁) = scriptsOf (desktopRelative s₂ auto₂)
      ∧ (¬ n < 1 → scriptsOf (desktopRelative s₁ auto₁) = [relativeScript n]))
    ∧ (scriptsOf (desktopWindowMenu s₁ auto₁) = scriptsOf (desktopWindowMenu s₂ auto₂)
      ∧ (¬ n < 1 → scriptsOf (desktopWindowMenu s₁ auto₁) = [windowMenuScript n]))
    ∧ (scriptsOf (desktopDock s₁ auto₁) = scriptsOf (desktopDock s₂ auto₂)
      ∧ (¬ n < 1 → scriptsOf (desktopDock s₁ auto₁) = [dockScript n]))
    ∧ (scriptsOf (desktopAssignTo s₁ auto₁) = scriptsOf (desktopAssignTo s₂ auto₂)
      ∧ (¬ n < 1 → scriptsOf (desktopAssignTo s₁ auto₁) = [assignToScript n]))
    ∧ (scriptsOf (desktopJxa s₁ td₁ now₁ ok₁ auto₁)
          = scriptsOf (desktopJxa s₂ td₂ now₂ ok₂ auto₂)
      ∧ (¬ n < 1 → scriptsOf (desktopJxa s₁ td₁ now₁ ok₁ auto₁) = [jxaScriptText n]))
    ∧ (scriptsOf (desktopSweep s₁ auto₁) = scriptsOf (desktopSweep s₂ auto₂)
      ∧ (¬ n < 1 → scriptsOf (desktopSweep s₁ auto₁) = [sweepScript n])) := by
  by_cases hn : n < 1
  · have r₁ := rejects_of_lt s₁ n h₁ hn
    have r₂ := rejects_of_lt s₂ n h₂ hn
    exact ⟨⟨by rw [display_scriptsOf_reject s₁ auto₁ r₁,
          display_scriptsOf_reject s₂ auto₂ r₂], fun hc => absurd hn hc⟩,
      ⟨by rw [menuFallback_scriptsOf_reject s₁ auto₁ r₁,
          menuFallback_scriptsOf_reject s₂ auto₂ r₂], fun hc => absurd hn hc⟩,
      ⟨by rw [keys_scriptsOf_reject s₁ auto₁ r₁,
          keys_scriptsOf_reject s₂ auto₂ r₂], fun hc => absurd hn hc⟩,
      ⟨by rw [menuSimple_scriptsOf_reject s₁ auto₁ r₁,
          menuSimple_scriptsOf_reject s₂ auto₂ r₂], fun hc => absurd hn hc⟩,
      ⟨by rw [relative_scriptsOf_reject s₁ auto₁ r₁,
          relative_scriptsOf_reject s₂ auto₂ r₂], fun hc => absurd hn hc⟩,
      ⟨by rw [windowMenu_scriptsOf_reject s₁ auto₁ r₁,
          windowMenu_scriptsOf_reject s₂ auto₂ r₂], fun hc => absurd hn hc⟩,
      ⟨by rw [dock_scriptsOf_reject s₁ auto₁ r₁,
          dock_scriptsOf_reject s₂ auto₂ r₂], fun hc => absurd hn hc⟩,
      ⟨by rw [assignTo_scriptsOf_reject s₁ auto₁ r₁,
          assignTo_scriptsOf_reject s₂ auto₂ r₂], fun hc => absurd hn hc⟩,
      ⟨by rw [jxa_scriptsOf_reject s₁ td₁ now₁ ok₁ auto₁ r₁,
          jxa_scriptsOf_reject s₂ td₂ now₂ ok₂ auto₂ r₂], fun hc => absurd hn hc⟩,
      ⟨by rw [sweep_scriptsOf_reject s₁ auto₁ r₁,
          sweep_scriptsOf_reject s₂ auto₂ r₂], fun hc => absurd hn hc⟩⟩
  · exact ⟨⟨by rw [display_scriptsOf_valid s₁ auto₁ n h₁ hn,
        display_scriptsOf_valid s₂ auto₂ n h₂ hn],
      fun _ => display_scriptsOf_valid s₁ auto₁ n h₁ hn⟩,
    ⟨by rw [menuFallback_scriptsOf_valid s₁ auto₁ n h₁ hn,
        menuFallback_scriptsOf_valid s₂ auto₂ n h₂ hn],
      fun _ => menuFallback_scriptsOf_valid s₁ auto₁ n h₁ hn⟩,
    ⟨by rw [keys_scriptsOf_valid s₁ auto₁ n h₁ hn,
        keys_scriptsOf_valid s₂ auto₂ n h₂ hn],
      fun _ => keys_scriptsOf_valid s₁ auto₁ n h₁ hn⟩,
    ⟨by rw [menuSimple_scriptsOf_valid s₁ auto₁ n h₁ hn,
        menuSimple_scriptsOf_valid s₂ auto₂ n h₂ hn],
      fun _ => menuSimple_scriptsOf_valid s₁ auto₁ n h₁ hn⟩,
    ⟨by rw [relative_scriptsOf_valid s₁ auto₁ n h₁ hn,
        relative_scriptsOf_valid s₂ auto₂ n h₂ hn],
      fun _ => relative_scriptsOf_valid s₁ auto₁ n h₁ hn⟩,
    ⟨by rw [windowMenu_scriptsOf_valid s₁ auto₁ n h₁ hn,
        windowMenu_scriptsOf_valid s₂ auto₂ n h₂ hn],
      fun _ => windowMenu_scriptsOf_valid s₁ auto₁ n h₁ hn⟩,
    ⟨by rw [dock_scriptsOf_valid s₁ auto₁ n h₁ hn,
        dock_scriptsOf_valid s₂ auto₂ n h₂ hn],
      fun _ => dock_scriptsOf_valid s₁ auto₁ n h₁ hn⟩,
    ⟨by rw [assignTo_scriptsOf_valid s₁ auto₁ n h₁ hn,
        assignTo_scriptsOf_valid s₂ auto₂ n h₂ hn],
      fun _ => assignTo_scriptsOf_valid s₁ auto₁ n h₁ hn⟩,
    ⟨by rw [jxa_scriptsOf_valid s₁ td₁ now₁ ok₁ auto₁ n h₁ hn,
        jxa_scriptsOf_valid s₂ td₂ now₂ ok₂ auto₂ n h₂ hn],
      fun _ => jxa_scriptsOf_valid s₁ td₁ now₁ ok₁ auto₁ n h₁ hn⟩,
    ⟨by rw [sweep_scriptsOf_valid s₁ auto₁ n h₁ hn,
        sweep_scriptsOf_valid s₂ auto₂ n h₂ hn],
      fun _ => sweep_scriptsOf_valid s₁ auto₁ n h₁ hn⟩⟩

/-- Witness for C5: `"2"` and `"2.9"` parse to the same value 2 and lead to
identical script text, here for the display mover and the keys variant. -/
theorem c5_witness :
    jsParseInt "2" = some 2 ∧ jsParseInt "2.9" = some 2 ∧
      scriptsOf (moveToDisplay "2" (.ret "SUCCESS|x")) =
        scriptsOf (moveToDisplay "2.9" (.thrown "boom")) ∧
      scriptsOf (desktopKeys "2" (.ret "success")) = [keysScript 2] :=
  ⟨by decide, by decide,
   (c5_script_pure_function "2" "2.9" 2 (.ret "SUCCESS|x") (.thrown "boom")
      "/a" "/b" 1 2 true false (by decide) (by decide)).1.1,
   ((c5_script_pure_function "2" "2" 2 (.ret "success") (.ret "success")
      "/a" "/a" 1 1 true true (by decide) (by decide)).2.2.1).2 (by decide)⟩
/-!
## Helper lemmas: surfacing the automation's error text
-/

lemma infix_of_append₂ (a r b : String) : r.data <:+: (a ++ r ++ b).data := by
  refine ⟨a.data, b.data, ?_⟩
  simp [String.data_append]

lemma infix_of_append₃ (a r b c : String) : r.data <:+: (a ++ r ++ b ++ c).data := by
  refine ⟨a.data, b.data ++ c.data, ?_⟩
  simp [String.data_append]

lemma infix_of_append₄ (a r b c d : String) :
    r.data <:+: (a ++ r ++ b ++ c ++ d).data := by
  refine ⟨a.data, b.data ++ c.data ++ d.data, ?_⟩
  simp [String.data_append]

lemma relativeFailMsg_surfaces (n : Int) (r : String) :
    r.data <:+: (relativeFailMsg n r).data := by
  unfold relativeFailMsg
  exact infix_of_append₄ _ _ _ _ _

lemma dockFailMsg_surfaces (n : Int) (r : String) :
    r.data <:+: (dockFailMsg n r).data := by
  unfold dockFailMsg
  exact infix_of_append₃ _ _ _ _

lemma assignToUnknownErrMsg_surfaces (n : Int) (r : String) :
    r.data <:+: (assignToUnknownErrMsg r n).data := by
  unfold assignToUnknownErrMsg
  exact infix_of_append₄ _ _ _ _ _

lemma relative_unrecognized_toast (s raw : String) (n : Int)
    (h : jsParseInt s = some n) (hn : ¬ n < 1)
    (h1 : jsTrim raw ≠ "success") (h2 : jsTrim raw ≠ "error:no_window") :
    failureToast "Move Failed" (relativeFailMsg n (jsTrim raw)) ∈
      desktopRelative s (.ret raw) := by
  rw [relative_pipeline s (.ret raw) n h hn]
  simp [relativeAfter, relativeResultEvents, h1, h2]

lemma dock_unrecognized_toast (s raw : String) (n : Int)
    (h : jsParseInt s = some n) (hn : ¬ n < 1)
    (h1 : jsTrim raw ≠ "success") (h2 : jsTrim raw ≠ "error:no_window")
    (h3 : jsTrim raw ≠ "error:desktop_not_found")
    (h4 : jsTrim raw ≠ "error:no_assign_to")
    (h5 : strStartsWith (jsTrim raw) "error:dock_error" = false) :
    failureToast "Move Failed" (dockFailMsg n (jsTrim raw)) ∈
      desktopDock s (.ret raw) := by
  rw [dock_pipeline s (.ret raw) n h hn]
  simp [dockAfter, dockResultEvents, h1, h2, h3, h4, h5]

lemma assignTo_unrecognized_toast (s raw : String) (n : Int)
    (h : jsParseInt s = some n) (hn : ¬ n < 1)
    (h1 : jsTrim raw ≠ "success") (h2 : jsTrim raw ≠ "error:no_window")
    (h3 : jsTrim raw ≠ "error:no_window_menu")
    (h4 : jsTrim raw ≠ "error:desktop_not_in_menu")
    (h5 : strStartsWith (jsTrim raw) "error:no_move_option" = false) :
    failureToast "Unknown Error" (assignToUnknownErrMsg (jsTrim raw) n) ∈
      desktopAssignTo s (.ret raw) := by
  rw [assignTo_pipeline s (.ret raw) n h hn]
  simp [assignToAfter, assignToResultEvents, h1, h2, h3, h4, h5]

lemma menuSimple_unrecognized_toast (s raw : String) (n : Int)
    (h : jsParseInt s = some n) (hn : ¬ n < 1)
    (h1 : jsTrim raw ≠ "success") (h2 : jsTrim raw ≠ "error:no_window")
    (h3 : jsTrim raw ≠ "error:no_menu") (h4 : jsTrim raw ≠ "error:menu_not_found")
    (h5 : (strContains (jsToLower (jsTrim raw)) "accessibility" ||
           strContains (jsToLower (jsTrim raw)) "not authorized") = false) :
    failureToast "Move Failed" (jsTrim raw) ∈ desktopMenuSimple s (.ret raw) := by
  rw [menuSimple_pipeline s (.ret raw) n h hn]
  simp [menuSimpleAfter, menuSimpleResultEvents, simpleCatchEvents, h1, h2, h3, h4, h5]

lemma windowMenu_unrecognized_toast (s raw : String) (n : Int)
    (h : jsParseInt s = some n) (hn : ¬ n < 1)
    (h1 : jsTrim raw ≠ "success") (h2 : jsTrim raw ≠ "error:no_window")
    (h3 : jsTrim raw ≠ "error:no_window_menu")
    (h4 : jsTrim raw ≠ "error:desktop_not_in_menu")
    (h5 : jsTrim raw ≠ "error:no_move_option")
    (h6 : (strContains (jsToLower (jsTrim raw)) "accessibility" ||
           strContains (jsToLower (jsTrim raw)) "not authorized") = false) :
    failureToast "Move Failed" (jsTrim raw) ∈ desktopWindowMenu s (.ret raw) := by
  rw [windowMenu_pipeline s (.ret raw) n h hn]
  simp [windowMenuAfter, windowMenuResultEvents, simpleCatchEvents,
    h1, h2, h3, h4, h5, h6]

lemma keys_unrecognized_toast (s raw : String) (n : Int)
    (h : jsParseInt s = some n) (hn : ¬ n < 1)
    (h1 : jsTrim raw ≠ "success") (h2 : jsTrim raw ≠ "error:no_window")
    (h3 : jsTrim raw ≠ "error:invalid_desktop") :
    failureToast "Move Failed - Setup Required" (keysSetupMsg n) ∈
      desktopKeys s (.ret raw) := by
  rw [keys_pipeline s (.ret raw) n h hn]
  simp [keysAfter, keysResultEvents, h1, h2, h3]

lemma sweep_unrecognized_toast (s raw : String) (n : Int)
    (h : jsParseInt s = some n) (hn : ¬ n < 1)
    (h1 : jsTrim raw ≠ "success") (h2 : jsTrim raw ≠ "error:no_window")
    (h3 : jsTrim raw ≠ "error:invalid_desktop") :
    failureToast "Move Failed - Setup Required" (sweepSetupMsg n) ∈
      desktopSweep s (.ret raw) := by
  rw [sweep_pipeline s (.ret raw) n h hn]
  simp [sweepAfter, sweepResultEvents, h1, h2, h3]

set_option maxRecDepth 20000 in
/-- C6 counterexample: The claim "for every unrecognized automation
result `r`, the Failure toast contains `r` verbatim" fails on the
keyboard-shortcut variant (src/unnamed/part_000, third document): on the
unrecognized result `"mystery_code"` its whole run is the fixed
setup-instructions Failure toast, whose message does not contain
`"mystery_code"`. -/
theorem c6_counterexample :
    desktopKeys "2" (.ret "mystery_code") =
      [Event.closeMain, movingToast 2, Event.runScript (keysScript 2),
       failureToast "Move Failed - Setup Required" (keysSetupMsg 2)]
    ∧ ¬ ("mystery_code".data <:+: (keysSetupMsg 2).data) :=
  ⟨rfl, by decide⟩

/-- C6 amended: For a valid argument and an unrecognized automation
result, the relative-move, Dock and Assign-To variants include the trimmed
result text verbatim inside their Failure-toast message, and the simple
Window-menu variants surface it as the entire message whenever it does not
mention accessibility/authorization; the two keyboard-shortcut variants
(part_000 third document, part_003 fourth document) instead show a fixed
setup-instructions message that does not interpolate the result. -/
theorem c6_error_text_amended (s raw : String) (n : Int)
    (h : jsParseInt s = some n) (hn : ¬ n < 1) :
    (jsTrim raw ≠ "success" → jsTrim raw ≠ "error:no_window" →
      failureToast "Move Failed" (relativeFailMsg n (jsTrim raw)) ∈
          desktopRelative s (.ret raw)
        ∧ (jsTrim raw).data <:+: (relativeFailMsg n (jsTrim raw)).data)
    ∧ (jsTrim raw ≠ "success" → jsTrim raw ≠ "error:no_window" →
        jsTrim raw ≠ "error:desktop_not_found" → jsTrim raw ≠ "error:no_assign_to" →
        strStartsWith (jsTrim raw) "error:dock_error" = false →
      failureToast "Move Failed" (dockFailMsg n (jsTrim raw)) ∈
          desktopDock s (.ret raw)
        ∧ (jsTrim raw).data <:+: (dockFailMsg n (jsTrim raw)).data)
    ∧ (jsTrim raw ≠ "success" → jsTrim raw ≠ "error:no_window" →
        jsTrim raw ≠ "error:no_window_menu" →
        jsTrim raw ≠ "error:desktop_not_in_menu" →
        strStartsWith (jsTrim raw) "error:no_move_option" = false →
      failureToast "Unknown Error" (assignToUnknownErrMsg (jsTrim raw) n) ∈
          desktopAssignTo s (.ret raw)
        ∧ (jsTrim raw).data <:+: (assignToUnknownErrMsg (jsTrim raw) n).data)
    ∧ (jsTrim raw ≠ "success" → jsTrim raw ≠ "error:no_window" →
        jsTrim raw ≠ "error:no_menu" → jsTrim raw ≠ "error:menu_not_found" →
        (strContains (jsToLower (jsTrim raw)) "accessibility" ||
         strContains (jsToLower (jsTrim raw)) "not authorized") = false →
      failureToast "Move Failed" (jsTrim raw) ∈ desktopMenuSimple s (.ret raw))
    ∧ (jsTrim raw ≠ "success" → jsTrim raw ≠ "error:no_window" →
        jsTrim raw ≠ "error:no_window_menu" →
        jsTrim raw ≠ "error:desktop_not_in_menu" →
        jsTrim raw ≠ "error:no_move_option" →
        (strContains (jsToLower (jsTrim raw)) "accessibility" ||
         strContains (jsToLower (jsTrim raw)) "not authorized") = false →
      failureToast "Move Failed" (jsTrim raw) ∈ desktopWindowMenu s (.ret raw))
    ∧ (jsTrim raw ≠ "success" → jsTrim raw ≠ "error:no_window" →
        jsTrim raw ≠ "error:invalid_desktop" →
      failureToast "Move Failed - Setup Required" (keysSetupMsg n) ∈
        desktopKeys s (.ret raw))
    ∧ (jsTrim raw ≠ "success" → jsTrim raw ≠ "error:no_window" →
        jsTrim raw ≠ "error:invalid_desktop" →
      failureToast "Move Failed - Setup Required" (sweepSetupMsg n) ∈
        desktopSweep s (.ret raw)) :=
  ⟨fun h1 h2 => ⟨relative_unrecognized_toast s raw n h hn h1 h2,
      relativeFailMsg_surfaces n (jsTrim raw)⟩,
   fun h1 h2 h3 h4 h5 => ⟨dock_unrecognized_toast s raw n h hn h1 h2 h3 h4 h5,
      dockFailMsg_surfaces n (jsTrim raw)⟩,
   fun h1 h2 h3 h4 h5 => ⟨assignTo_unrecognized_toast s raw n h hn h1 h2 h3 h4 h5,
      assignToUnknownErrMsg_surfaces n (jsTrim raw)⟩,
   fun h1 h2 h3 h4 h5 => menuSimple_unrecognized_toast s raw n h hn h1 h2 h3 h4 h5,
   fun h1 h2 h3 h4 h5 h6 => windowMenu_unrecognized_toast s raw n h hn h1 h2 h3 h4 h5 h6,
   fun h1 h2 h3 => keys_unrecognized_toast s raw n h hn h1 h2 h3,
   fun h1 h2 h3 => sweep_unrecognized_toast s raw n h hn h1 h2 h3⟩

set_option maxRecDepth 20000 in
/-- Witness for the amended C6 at `s = "2"`, result `"weird_result"`:
the relative-move variant surfaces the text verbatim. -/
theorem c6_witness :
    jsParseInt "2" = some 2 ∧ ¬ (2 : Int) < 1 ∧
      jsTrim "weird_result" ≠ "success" ∧ jsTrim "weird_result" ≠ "error:no_window" ∧
      (failureToast "Move Failed" (relativeFailMsg 2 (jsTrim "weird_result")) ∈
          desktopRelative "2" (.ret "weird_result")
        ∧ (jsTrim "weird_result").data <:+: (relativeFailMsg 2 (jsTrim "weird_result")).data) :=
  ⟨by decide, by decide, by decide, by decide,
   (c6_error_text_amended "2" "weird_result" 2 (by decide) (by decide)).1
     (by decide) (by decide)⟩
/-!
## Helper lemmas: sentinel matching of the automation result
-/

lemma not_rejects_of (s : String) (n : Int) (h : jsParseInt s = some n)
    (hn : ¬ n < 1) : rejects s = false := by
  unfold rejects
  rw [h]
  simpa using hn

lemma strBeq_false (a b : String) (h : a ≠ b) : (a == b) = false :=
  beq_eq_false_iff_ne.mpr h

lemma display_sentinel (s r : String) (n : Int)
    (h : jsParseInt s = some n) (hn : ¬ n < 1) :
    hasFailureToast (moveToDisplay s (.ret r)) =
        ((jsSplitOnChar '|' r).headD "" == "ERROR")
      ∧ hasSuccessToast (moveToDisplay s (.ret r)) =
        !((jsSplitOnChar '|' r).headD "" == "ERROR") := by
  constructor
  · rw [display_hasFailure]
    simp [not_rejects_of s n h hn, displaySuccess]
  · rw [display_hasSuccess]
    simp [not_rejects_of s n h hn, displaySuccess]

lemma menuFallback_sentinel (s r : String) (n : Int)
    (h : jsParseInt s = some n) (hn : ¬ n < 1) :
    hasFailureToast (desktopMenuFallback s (.ret r)) = strContains r "Error:"
      ∧ hasSuccessToast (desktopMenuFallback s (.ret r)) = !(strContains r "Error:") := by
  constructor
  · rw [menuFallback_hasFailure]
    simp [not_rejects_of s n h hn, menuFallbackSuccess]
  · rw [menuFallback_hasSuccess]
    simp [not_rejects_of s n h hn, menuFallbackSuccess]

lemma keys_sentinels (s raw : String) (n : Int)
    (h : jsParseInt s = some n) (hn : ¬ n < 1) :
    (jsTrim raw = "success" →
      successToast "Window Moved" ("Moved to Desktop " ++ numStr n) ∈
        desktopKeys s (.ret raw))
    ∧ (jsTrim raw = "error:no_window" →
      failureToast "No Window Found" "The frontmost app has no windows to move" ∈
        desktopKeys s (.ret raw))
    ∧ (jsTrim raw = "error:invalid_desktop" →
      failureToast "Invalid Desktop Number" "Desktop number must be between 1 and 9" ∈
        desktopKeys s (.ret raw))
    ∧ (jsTrim raw ≠ "success" →
      hasFailureToast (desktopKeys s (.ret raw)) = true) := by
  refine ⟨fun ht => ?_, fun ht => ?_, fun ht => ?_, fun ht => ?_⟩
  · rw [keys_pipeline s (.ret raw) n h hn]
    simp [keysAfter, keysResultEvents, ht]
  · rw [keys_pipeline s (.ret raw) n h hn]
    simp [keysAfter, keysResultEvents, ht]
  · rw [keys_pipeline s (.ret raw) n h hn]
    simp [keysAfter, keysResultEvents, ht]
  · rw [keys_hasFailure]
    simp [not_rejects_of s n h hn, trimmedSuccess, strBeq_false _ _ ht]

lemma menuSimple_sentinels (s raw : String) (n : Int)
    (h : jsParseInt s = some n) (hn : ¬ n < 1) :
    (jsTrim raw = "success" →
      successToast "Window Moved" ("Moved to Desktop " ++ numStr n) ∈
        desktopMenuSimple s (.ret raw))
    ∧ (jsTrim raw = "error:no_window" →
      failureToast "No Window Found" "Please focus a window first and try again" ∈
        desktopMenuSimple s (.ret raw))
    ∧ (jsTrim raw = "error:no_menu" →
      failureToast "Window Menu Not Available" (menuSimpleNoMenuMsg n) ∈
        desktopMenuSimple s (.ret raw))
    ∧ (jsTrim raw = "error:menu_not_found" →
      failureToast "Desktop Not in Menu" (menuSimpleMenuNotFoundMsg n) ∈
        desktopMenuSimple s (.ret raw))
    ∧ (jsTrim raw ≠ "success" →
      hasFailureToast (desktopMenuSimple s (.ret raw)) = true) := by
  refine ⟨fun ht => ?_, fun ht => ?_, fun ht => ?_, fun ht => ?_, fun ht => ?_⟩
  · rw [menuSimple_pipeline s (.ret raw) n h hn]
    simp [menuSimpleAfter, menuSimpleResultEvents, ht]
  · rw [menuSimple_pipeline s (.ret raw) n h hn]
    simp [menuSimpleAfter, menuSimpleResultEvents, ht]
  · rw [menuSimple_pipeline s (.ret raw) n h hn]
    simp [menuSimpleAfter, menuSimpleResultEvents, ht]
  · rw [menuSimple_pipeline s (.ret raw) n h hn]
    simp [menuSimpleAfter, menuSimpleResultEvents, ht]
  · rw [menuSimple_hasFailure]
    simp [not_rejects_of s n h hn, trimmedSuccess, strBeq_false _ _ ht]

lemma relative_sentinels (s raw : String) (n : Int)
    (h : jsParseInt s = some n) (hn : ¬ n < 1) :
    (jsTrim raw = "success" →
      successToast "Window Moved" ("Moved to Desktop " ++ numStr n) ∈
        desktopRelative s (.ret raw))
    ∧ (jsTrim raw = "error:no_window" →
      failureToast "No Window Found" "The frontmost app has no windows to move" ∈
        desktopRelative s (.ret raw))
    ∧ (jsTrim raw ≠ "success" →
      hasFailureToast (desktopRelative s (.ret raw)) = true) := by
  refine ⟨fun ht => ?_, fun ht => ?_, fun ht => ?_⟩
  · rw [relative_pipeline s (.ret raw) n h hn]
    simp [relativeAfter, relativeResultEvents, ht]
  · rw [relative_pipeline s (.ret raw) n h hn]
    simp [relativeAfter, relativeResultEvents, ht]
  · rw [relative_hasFailure]
    simp [not_rejects_of s n h hn, trimmedSuccess, strBeq_false _ _ ht]

lemma windowMenu_sentinels (s raw : String) (n : Int)
    (h : jsParseInt s = some n) (hn : ¬ n < 1) :
    (jsTrim raw = "success" →
      successToast "Window Moved" ("Moved to Desktop " ++ numStr n) ∈
        desktopWindowMenu s (.ret raw))
    ∧ (jsTrim raw = "error:no_window" →
      failureToast "No Window Found" "The frontmost app has no windows to move" ∈
        desktopWindowMenu s (.ret raw))
    ∧ (jsTrim raw = "error:no_window_menu" →
      failureToast "No Window Menu" (wmNoWindowMenuMsg n) ∈
        desktopWindowMenu s (.ret raw))
    ∧ (jsTrim raw = "error:desktop_not_in_menu" →
      failureToast "Desktop Not Available" (wmDesktopNotInMenuMsg n) ∈
        desktopWindowMenu s (.ret raw))
    ∧ (jsTrim raw = "error:no_move_option" →
      failureToast "Move Option Not Found" (wmNoMoveOptionMsg n) ∈
        desktopWindowMenu s (.ret raw))
    ∧ (jsTrim raw ≠ "success" →
      hasFailureToast (desktopWindowMenu s (.ret raw)) = true) := by
  refine ⟨fun ht => ?_, fun ht => ?_, fun ht => ?_, fun ht => ?_, fun ht => ?_,
    fun ht => ?_⟩
  · rw [windowMenu_pipeline s (.ret raw) n h hn]
    simp [windowMenuAfter, windowMenuResultEvents, ht]
  · rw [windowMenu_pipeline s (.ret raw) n h hn]
    simp [windowMenuAfter, windowMenuResultEvents, ht]
  · rw [windowMenu_pipeline s (.ret raw) n h hn]
    simp [windowMenuAfter, windowMenuResultEvents, ht]
  · rw [windowMenu_pipeline s (.ret raw) n h hn]
    simp [windowMenuAfter, windowMenuResultEvents, ht]
  · rw [windowMenu_pipeline s (.ret raw) n h hn]
    simp [windowMenuAfter, windowMenuResultEvents, ht]
  · rw [windowMenu_hasFailure]
    simp [not_rejects_of s n h hn, trimmedSuccess, strBeq_false _ _ ht]

lemma dock_sentinels (s raw : String) (n : Int)
    (h : jsParseInt s = some n) (hn : ¬ n < 1) :
    (jsTrim raw = "success" →
      successToast "Window Moved" ("Moved to Desktop " ++ numStr n) ∈
        desktopDock s (.ret raw))
    ∧ (jsTrim raw = "error:no_window" →
      failureToast "No Window Found" "The frontmost app has no windows to move" ∈
        desktopDock s (.ret raw))
    ∧ (jsTrim raw = "error:desktop_not_found" →
      failureToast "Desktop Not Found" (dockDesktopNotFoundMsg n) ∈
        desktopDock s (.ret raw))
    ∧ (jsTrim raw = "error:no_assign_to" →
      failureToast "Assign To Not Available" dockNoAssignToMsg ∈
        desktopDock s (.ret raw))
    ∧ (jsTrim raw ≠ "success" →
      hasFailureToast (desktopDock s (.ret raw)) = true) := by
  refine ⟨fun ht => ?_, fun ht => ?_, fun ht => ?_, fun ht => ?_, fun ht => ?_⟩
  · rw [dock_pipeline s (.ret raw) n h hn]
    simp [dockAfter, dockResultEvents, ht]
  · rw [dock_pipeline s (.ret raw) n h hn]
    simp [dockAfter, dockResultEvents, ht]
  · rw [dock_pipeline s (.ret raw) n h hn]
    simp [dockAfter, dockResultEvents, ht, strStartsWith]
  · rw [dock_pipeline s (.ret raw) n h hn]
    simp [dockAfter, dockResultEvents, ht, strStartsWith]
  · rw [dock_hasFailure]
    simp [not_rejects_of s n h hn, trimmedSuccess, strBeq_false _ _ ht]

lemma assignTo_sentinels (s raw : String) (n : Int)
    (h : jsParseInt s = some n) (hn : ¬ n < 1) :
    (jsTrim raw = "success" →
      successToast "Window Moved" ("Moved to Desktop " ++ numStr n) ∈
        desktopAssignTo s (.ret raw))
    ∧ (jsTrim raw = "error:no_window" →
      failureToast "No Window Found" "The frontmost app has no windows to move" ∈
        desktopAssignTo s (.ret raw))
    ∧ (jsTrim raw = "error:no_window_menu" →
      failureToast "No Window Menu" (assignToNoWindowMenuMsg n) ∈
        desktopAssignTo s (.ret raw))
    ∧ (jsTrim raw = "error:desktop_not_in_menu" →
      failureToast "Desktop Not Available" (assignToDesktopNotInMenuMsg n) ∈
        desktopAssignTo s (.ret raw))
    ∧ (jsTrim raw ≠ "success" →
      hasFailureToast (desktopAssignTo s (.ret raw)) = true) := by
  refine ⟨fun ht => ?_, fun ht => ?_, fun ht => ?_, fun ht => ?_, fun ht => ?_⟩
  · rw [assignTo_pipeline s (.ret raw) n h hn]
    simp [assignToAfter, assignToResultEvents, ht]
  · rw [assignTo_pipeline s (.ret raw) n h hn]
    simp [assignToAfter, assignToResultEvents, ht]
  · rw [assignTo_pipeline s (.ret raw) n h hn]
    simp [assignToAfter, assignToResultEvents, ht, strStartsWith]
  · rw [assignTo_pipeline s (.ret raw) n h hn]
    simp [assignToAfter, assignToResultEvents, ht, strStartsWith]
  · rw [assignTo_hasFailure]
    simp [not_rejects_of s n h hn, trimmedSuccess, strBeq_false _ _ ht]

lemma sweep_sentinels (s raw : String) (n : Int)
    (h : jsParseInt s = some n) (hn : ¬ n < 1) :
    (jsTrim raw = "success" →
      successToast "Window Moved" ("Moved to Desktop " ++ numStr n) ∈
        desktopSweep s (.ret raw))
    ∧ (jsTrim raw = "error:no_window" →
      failureToast "No Window Found" "The frontmost app has no windows to move" ∈
        desktopSweep s (.ret raw))
    ∧ (jsTrim raw = "error:invalid_desktop" →
      failureToast "Invalid Desktop Number" "Desktop number must be between 1 and 9" ∈
        desktopSweep s (.ret raw))
    ∧ (jsTrim raw ≠ "success" →
      hasFailureToast (desktopSweep s (.ret raw)) = true) := by
  refine ⟨fun ht => ?_, fun ht => ?_, fun ht => ?_, fun ht => ?_⟩
  · rw [sweep_pipeline s (.ret raw) n h hn]
    simp [sweepAfter, sweepResultEvents, ht]
  · rw [sweep_pipeline s (.ret raw) n h hn]
    simp [sweepAfter, sweepResultEvents, ht]
  · rw [sweep_pipeline s (.ret raw) n h hn]
    simp [sweepAfter, sweepResultEvents, ht]
  · rw [sweep_hasFailure]
    simp [not_rejects_of s n h hn, trimmedSuccess, strBeq_false _ _ ht]

lemma jxa_ret_success (s td : String) (now : Nat) (ok : Bool) (raw : String) (n : Int)
    (h : jsParseInt s = some n) (hn : ¬ n < 1) :
    successToast "Window Moved" ("Successfully moved to Desktop " ++ numStr n) ∈
      desktopJxa s td now ok (.ret raw) := by
  rw [jxa_pipeline s td now ok (.ret raw) n h hn]
  simp [jxaAfter]

/-- C2 counterexample: The claim "in the desktop-mover variants every
unrecognized result still maps to a Failure toast" fails on the Window-menu
variant with keyboard fallback (src/unnamed/part_000, second document),
which only substring-matches `"Error:"`: the unrecognized result
`"garbage"` yields a Success toast and no Failure toast. -/
theorem c2_counterexample :
    hasSuccessToast (desktopMenuFallback "2" (.ret "garbage")) = true
    ∧ hasFailureToast (desktopMenuFallback "2" (.ret "garbage")) = false :=
  ⟨by decide, by decide⟩

/-- C2 amended: On a valid argument: the display mover shows a Failure
toast if and only if the segment of the result before the first `|` is
`"ERROR"` (any other result yields a Success toast); the seven desktop
variants that match exact sentinels map `"success"` and each
`error:` sentinel to its own dedicated toast and every other (trimmed)
result to a Failure toast; but the Window-menu-with-fallback variant
decides by substring — Failure exactly when the result contains
`"Error:"`, anything else (recognized or not) yields a Success toast — and
the JXA variant shows the Success toast for every returned value. -/
theorem c2_sentinel_matching_amended (s raw r : String) (n : Int) (td : String)
    (now : Nat) (ok : Bool) (h : jsParseInt s = some n) (hn : ¬ n < 1) :
    (hasFailureToast (moveToDisplay s (.ret r)) =
        ((jsSplitOnChar '|' r).headD "" == "ERROR")
      ∧ hasSuccessToast (moveToDisplay s (.ret r)) =
        !((jsSplitOnChar '|' r).headD "" == "ERROR"))
    ∧ (hasFailureToast (desktopMenuFallback s (.ret r)) = strContains r "Error:"
      ∧ hasSuccessToast (desktopMenuFallback s (.ret r)) = !(strContains r "Error:"))
    ∧ ((jsTrim raw = "success" →
        successToast "Window Moved" ("Moved to Desktop " ++ numStr n) ∈
          desktopKeys s (.ret raw))
      ∧ (jsTrim raw = "error:no_window" →
        failureToast "No Window Found" "The frontmost app has no windows to move" ∈
          desktopKeys s (.ret raw))
      ∧ (jsTrim raw = "error:invalid_desktop" →
        failureToast "Invalid Desktop Number" "Desktop number must be between 1 and 9" ∈
          desktopKeys s (.ret raw))
      ∧ (jsTrim raw ≠ "success" →
        hasFailureToast (desktopKeys s (.ret raw)) = true))
    ∧ ((jsTrim raw = "success" →
        successToast "Window Moved" ("Moved to Desktop " ++ numStr n) ∈
          desktopMenuSimple s (.ret raw))
      ∧ (jsTrim raw = "error:no_window" →
        failureToast "No Window Found" "Please focus a window first and try again" ∈
          desktopMenuSimple s (.ret raw))
      ∧ (jsTrim raw = "error:no_menu" →
        failureToast "Window Menu Not Available" (menuSimpleNoMenuMsg n) ∈
          desktopMenuSimple s (.ret raw))
      ∧ (jsTrim raw = "error:menu_not_found" →
        failureToast "Desktop Not in Menu" (menuSimpleMenuNotFoundMsg n) ∈
          desktopMenuSimple s (.ret raw))
      ∧ (jsTrim raw ≠ "success" →
        hasFailureToast (desktopMenuSimple s (.ret raw)) = true))
    ∧ ((jsTrim raw = "success" →
        successToast "Window Moved" ("Moved to Desktop " ++ numStr n) ∈
          desktopRelative s (.ret raw))
      ∧ (jsTrim raw = "error:no_window" →
        failureToast "No Window Found" "The frontmost app has no windows to move" ∈
          desktopRelative s (.ret raw))
      ∧ (jsTrim raw ≠ "success" →
        hasFailureToast (desktopRelative s (.ret raw)) = true))
    ∧ ((jsTrim raw = "success" →
        successToast "Window Moved" ("Moved to Desktop " ++ numStr n) ∈
          desktopWindowMenu s (.ret raw))
      ∧ (jsTrim raw = "error:no_window" →
        failureToast "No Window Found" "The frontmost app has no windows to move" ∈
          desktopWindowMenu s (.ret raw))
      ∧ (jsTrim raw = "error:no_window_menu" →
        failureToast "No Window Menu" (wmNoWindowMenuMsg n) ∈
          desktopWindowMenu s (.ret raw))
      ∧ (jsTrim raw = "error:desktop_not_in_menu" →
        failureToast "Desktop Not Available" (wmDesktopNotInMenuMsg n) ∈
          desktopWindowMenu s (.ret raw))
      ∧ (jsTrim raw = "error:no_move_option" →
        failureToast "Move Option Not Found" (wmNoMoveOptionMsg n) ∈
          desktopWindowMenu s (.ret raw))
      ∧ (jsTrim raw ≠ "success" →
        hasFailureToast (desktopWindowMenu s (.ret raw)) = true))
    ∧ ((jsTrim raw = "success" →
        successToast "Window Moved" ("Moved to Desktop " ++ numStr n) ∈
          desktopDock s (.ret raw))
      ∧ (jsTrim raw = "error:no_window" →
        failureToast "No Window Found" "The frontmost app has no windows to move" ∈
          desktopDock s (.ret raw))
      ∧ (jsTrim raw = "error:desktop_not_found" →
        failureToast "Desktop Not Found" (dockDesktopNotFoundMsg n) ∈
          desktopDock s (.ret raw))
      ∧ (jsTrim raw = "error:no_assign_to" →
        failureToast "Assign To Not Available" dockNoAssignToMsg ∈
          desktopDock s (.ret raw))
      ∧ (jsTrim raw ≠ "success" →
        hasFailureToast (desktopDock s (.ret raw)) = true))
    ∧ ((jsTrim raw = "success" →
        successToast "Window Moved" ("Moved to Desktop " ++ numStr n) ∈
          desktopAssignTo s (.ret raw))
      ∧ (jsTrim raw = "error:no_window" →
        failureToast "No Window Found" "The frontmost app has no windows to move" ∈
          desktopAssignTo s (.ret raw))
      ∧ (jsTrim raw = "error:no_window_menu" →
        failureToast "No Window Menu" (assignToNoWindowMenuMsg n) ∈
          desktopAssignTo s (.ret raw))
      ∧ (jsTrim raw = "error:desktop_not_in_menu" →
        failureToast "Desktop Not Available" (assignToDesktopNotInMenuMsg n) ∈
          desktopAssignTo s (.ret raw))
      ∧ (jsTrim raw ≠ "success" →
        hasFailureToast (desktopAssignTo s (.ret raw)) = true))
    ∧ ((jsTrim raw = "success" →
        successToast "Window Moved" ("Moved to Desktop " ++ numStr n) ∈
          desktopSweep s (.ret raw))
      ∧ (jsTrim raw = "error:no_window" →
        failureToast "No Window Found" "The frontmost app has no windows to move" ∈
          desktopSweep s (.ret raw))
      ∧ (jsTrim raw = "error:invalid_desktop" →
        failureToast "Invalid Desktop Number" "Desktop number must be between 1 and 9" ∈
          desktopSweep s (.ret raw))
      ∧ (jsTrim raw ≠ "success" →
        hasFailureToast (desktopSweep s (.ret raw)) = true))
    ∧ (successToast "Window Moved" ("Successfully moved to Desktop " ++ numStr n) ∈
        desktopJxa s td now ok (.ret raw)) :=
  ⟨display_sentinel s r n h hn,
   menuFallback_sentinel s r n h hn,
   keys_sentinels s raw n h hn,
   menuSimple_sentinels s raw n h hn,
   relative_sentinels s raw n h hn,
   windowMenu_sentinels s raw n h hn,
   dock_sentinels s raw n h hn,
   assignTo_sentinels s raw n h hn,
   sweep_sentinels s raw n h hn,
   jxa_ret_success s td now ok raw n h hn⟩

/-- Witness for the amended C2 at `s = "2"`, result `"error:no_window"`. -/
theorem c2_witness :
    jsParseInt "2" = some 2 ∧ ¬ (2 : Int) < 1 ∧
      jsTrim "error:no_window" = "error:no_window" ∧
      failureToast "No Window Found" "The frontmost app has no windows to move" ∈
        desktopKeys "2" (.ret "error:no_window") :=
  ⟨by decide, by decide, by decide,
   ((c2_sentinel_matching_amended "2" "error:no_window" "x" 2 "/tmp" 0 true
      (by decide) (by decide)).2.2.1).2.1 (by decide)⟩
/-!
## Helper lemmas: closeMainWindow calls in a trace
-/

lemma closeMainCount_cons (e : Event) (tr : List Event) :
    closeMainCount (e :: tr) = (if isCloseMainEv e then 1 else 0) + closeMainCount tr := by
  unfold closeMainCount
  rw [List.filter_cons]
  split_ifs <;> simp [Nat.add_comm]

lemma commonCatch_noClose (d m : String) :
    closeMainCount (commonCatchEvents d m) = 0 := by
  unfold commonCatchEvents
  try dsimp only
  split_ifs <;> rfl

lemma simpleCatch_noClose (m : String) :
    closeMainCount (simpleCatchEvents m) = 0 := by
  unfold simpleCatchEvents
  try dsimp only
  split_ifs <;> rfl

lemma keysAfter_noClose (n : Int) (auto : AutoOutcome) :
    closeMainCount (keysAfter n auto) = 0 := by
  cases auto with
  | ret raw =>
      unfold keysAfter keysResultEvents
      try dsimp only
      split_ifs <;> rfl
  | thrown m => exact commonCatch_noClose _ _

lemma menuSimpleAfter_noClose (n : Int) (auto : AutoOutcome) :
    closeMainCount (menuSimpleAfter n auto) = 0 := by
  cases auto with
  | ret raw =>
      unfold menuSimpleAfter menuSimpleResultEvents
      try dsimp only
      split_ifs <;> first | rfl | exact simpleCatch_noClose _
  | thrown m => exact simpleCatch_noClose _

lemma relativeAfter_noClose (n : Int) (auto : AutoOutcome) :
    closeMainCount (relativeAfter n auto) = 0 := by
  cases auto with
  | ret raw =>
      unfold relativeAfter relativeResultEvents
      try dsimp only
      split_ifs <;> rfl
  | thrown m => exact commonCatch_noClose _ _

lemma windowMenuAfter_noClose (n : Int) (auto : AutoOutcome) :
    closeMainCount (windowMenuAfter n auto) = 0 := by
  cases auto with
  | ret raw =>
      unfold windowMenuAfter windowMenuResultEvents
      try dsimp only
      split_ifs <;> first | rfl | exact simpleCatch_noClose _
  | thrown m => exact simpleCatch_noClose _

lemma dockAfter_noClose (n : Int) (auto : AutoOutcome) :
    closeMainCount (dockAfter n auto) = 0 := by
  cases auto with
  | ret raw =>
      unfold dockAfter dockResultEvents
      try dsimp only
      split_ifs <;> rfl
  | thrown m => exact commonCatch_noClose _ _

lemma assignToAfter_noClose (n : Int) (auto : AutoOutcome) :
    closeMainCount (assignToAfter n auto) = 0 := by
  cases auto with
  | ret raw =>
      unfold assignToAfter assignToResultEvents
      try dsimp only
      split_ifs <;> rfl
  | thrown m => exact commonCatch_noClose _ _

lemma sweepAfter_noClose (n : Int) (auto : AutoOutcome) :
    closeMainCount (sweepAfter n auto) = 0 := by
  cases auto with
  | ret raw =>
      unfold sweepAfter sweepResultEvents
      try dsimp only
      split_ifs <;> rfl
  | thrown m => exact commonCatch_noClose _ _

/-- C7: All desktop-mover variants make the same accept/reject decision
on every argument string and, on rejection, produce the identical single
"Invalid Desktop Number" Failure toast — they differ only in their
automation strategy, not in their input contract.  (Stated as: each variant
rejects exactly when the Window-menu-with-fallback variant does, and the
rejected run of every variant is the same one-toast trace.) -/
theorem c7_desktop_validation_equiv (s : String) (a b : AutoOutcome)
    (td : String) (now : Nat) (ok : Bool) :
    (desktopKeys s a = [invalidDesktopToast] ↔
      desktopMenuFallback s b = [invalidDesktopToast])
    ∧ (desktopMenuSimple s a = [invalidDesktopToast] ↔
      desktopMenuFallback s b = [invalidDesktopToast])
    ∧ (desktopRelative s a = [invalidDesktopToast] ↔
      desktopMenuFallback s b = [invalidDesktopToast])
    ∧ (desktopWindowMenu s a = [invalidDesktopToast] ↔
      desktopMenuFallback s b = [invalidDesktopToast])
    ∧ (desktopDock s a = [invalidDesktopToast] ↔
      desktopMenuFallback s b = [invalidDesktopToast])
    ∧ (desktopAssignTo s a = [invalidDesktopToast] ↔
      desktopMenuFallback s b = [invalidDesktopToast])
    ∧ (desktopJxa s td now ok a = [invalidDesktopToast] ↔
      desktopMenuFallback s b = [invalidDesktopToast])
    ∧ (desktopSweep s a = [invalidDesktopToast] ↔
      desktopMenuFallback s b = [invalidDesktopToast])
    ∧ (rejects s = true →
      desktopMenuFallback s b = [invalidDesktopToast]
        ∧ desktopKeys s a = [invalidDesktopToast]) :=
  ⟨(desktopKeys_reject_iff s a).trans (desktopMenuFallback_reject_iff s b).symm,
   (desktopMenuSimple_reject_iff s a).trans (desktopMenuFallback_reject_iff s b).symm,
   (desktopRelative_reject_iff s a).trans (desktopMenuFallback_reject_iff s b).symm,
   (desktopWindowMenu_reject_iff s a).trans (desktopMenuFallback_reject_iff s b).symm,
   (desktopDock_reject_iff s a).trans (desktopMenuFallback_reject_iff s b).symm,
   (desktopAssignTo_reject_iff s a).trans (desktopMenuFallback_reject_iff s b).symm,
   (desktopJxa_reject_iff s td now ok a).trans (desktopMenuFallback_reject_iff s b).symm,
   (desktopSweep_reject_iff s a).trans (desktopMenuFallback_reject_iff s b).symm,
   fun hr => ⟨(desktopMenuFallback_reject_iff s b).mpr hr,
     (desktopKeys_reject_iff s a).mpr hr⟩⟩

/-- Witness for C7: the non-numeric argument `"abc"` is rejected by all
variants with the identical toast. -/
theorem c7_witness :
    rejects "abc" = true ∧
      desktopMenuFallback "abc" (.ret "x") = [invalidDesktopToast] ∧
      desktopKeys "abc" (.thrown "y") = [invalidDesktopToast] :=
  ⟨by decide,
   ((c7_desktop_validation_equiv "abc" (.thrown "y") (.ret "x") "/tmp" 0 true).2.2.2.2.2.2.2.2
      (by decide)).1,
   ((c7_desktop_validation_equiv "abc" (.thrown "y") (.ret "x") "/tmp" 0 true).2.2.2.2.2.2.2.2
      (by decide)).2⟩

/-- C8: Validation accepts non-integer and partially numeric argument
strings: `parseInt(s, 10)` truncates `"2.9"`, `"2abc"` and `"   2"` to 2,
and whenever it yields `n ≥ 1` the command proceeds and targets
display/desktop `n` — the script executed is the template at index `n`
(shown for the display mover and the keys desktop variant). -/
theorem c8_lenient_validation (s : String) (n : Int) (auto : AutoOutcome) :
    jsParseInt "2.9" = some 2 ∧ jsParseInt "2abc" = some 2 ∧
      jsParseInt "   2" = some 2 ∧
      (jsParseInt s = some n → 1 ≤ n →
        Event.runScript (displayScript n) ∈ moveToDisplay s auto
          ∧ Event.runScript (keysScript n) ∈ desktopKeys s auto) :=
  ⟨by decide, by decide, by decide,
   fun h h1 => by
    have hn : ¬ n < 1 := Int.not_lt.mpr h1
    constructor
    · rw [display_pipeline s auto n h hn]
      simp
    · rw [keys_pipeline s auto n h hn]
      simp⟩

/-- Witness for C8 at the fractional argument `"2.9"`. -/
theorem c8_witness :
    jsParseInt "2.9" = some 2 ∧ (1 : Int) ≤ 2 ∧
      Event.runScript (displayScript 2) ∈ moveToDisplay "2.9" (.ret "SUCCESS|ok") :=
  ⟨by decide, by decide,
   ((c8_lenient_validation "2.9" 2 (.ret "SUCCESS|ok")).2.2.2
      (by decide) (by decide)).1⟩

/-- C9: In every desktop-mover variant that calls `closeMainWindow`, the
Raycast main window is closed exactly once per valid run, as the very first
effect — after validation succeeded and before the automation and all
outcome toasts — and the command performs no reopening effect at any point
(the event alphabet of the embedding covers every effect the code
performs); on invalid input the main window is left untouched. -/
theorem c9_close_main_window (s : String) (auto : AutoOutcome) (n : Int) :
    ((rejects s = true → closeMainCount (desktopKeys s auto) = 0)
      ∧ (jsParseInt s = some n → ¬ n < 1 →
        (desktopKeys s auto).head? = some Event.closeMain
          ∧ closeMainCount (desktopKeys s auto) = 1))
    ∧ ((rejects s = true → closeMainCount (desktopMenuSimple s auto) = 0)
      ∧ (jsParseInt s = some n → ¬ n < 1 →
        (desktopMenuSimple s auto).head? = some Event.closeMain
          ∧ closeMainCount (desktopMenuSimple s auto) = 1))
    ∧ ((rejects s = true → closeMainCount (desktopRelative s auto) = 0)
      ∧ (jsParseInt s = some n → ¬ n < 1 →
        (desktopRelative s auto).head? = some Event.closeMain
          ∧ closeMainCount (desktopRelative s auto) = 1))
    ∧ ((rejects s = true → closeMainCount (desktopWindowMenu s auto) = 0)
      ∧ (jsParseInt s = some n → ¬ n < 1 →
        (desktopWindowMenu s auto).head? = some Event.closeMain
          ∧ closeMainCount (desktopWindowMenu s auto) = 1))
    ∧ ((rejects s = true → closeMainCount (desktopDock s auto) = 0)
      ∧ (jsParseInt s = some n → ¬ n < 1 →
        (desktopDock s auto).head? = some Event.closeMain
          ∧ closeMainCount (desktopDock s auto) = 1))
    ∧ ((rejects s = true → closeMainCount (desktopAssignTo s auto) = 0)
      ∧ (jsParseInt s = some n → ¬ n < 1 →
        (desktopAssignTo s auto).head? = some Event.closeMain
          ∧ closeMainCount (desktopAssignTo s auto) = 1))
    ∧ ((rejects s = true → closeMainCount (desktopSweep s auto) = 0)
      ∧ (jsParseInt s = some n → ¬ n < 1 →
        (desktopSweep s auto).head? = some Event.closeMain
          ∧ closeMainCount (desktopSweep s auto) = 1)) := by
  refine ⟨⟨fun hr => ?_, fun h hn => ⟨?_, ?_⟩⟩, ⟨fun hr => ?_, fun h hn => ⟨?_, ?_⟩⟩,
    ⟨fun hr => ?_, fun h hn => ⟨?_, ?_⟩⟩, ⟨fun hr => ?_, fun h hn => ⟨?_, ?_⟩⟩,
    ⟨fun hr => ?_, fun h hn => ⟨?_, ?_⟩⟩, ⟨fun hr => ?_, fun h hn => ⟨?_, ?_⟩⟩,
    ⟨fun hr => ?_, fun h hn => ⟨?_, ?_⟩⟩⟩
  · rw [(desktopKeys_reject_iff s auto).mpr hr]; rfl
  · rw [keys_pipeline s auto n h hn]; rfl
  · rw [keys_pipeline s auto n h hn]
    simp [closeMainCount_cons, isCloseMainEv, movingToast, animatedToast,
      keysAfter_noClose]
  · rw [(desktopMenuSimple_reject_iff s auto).mpr hr]; rfl
  · rw [menuSimple_pipeline s auto n h hn]; rfl
  · rw [menuSimple_pipeline s auto n h hn]
    simp [closeMainCount_cons, isCloseMainEv, movingToast, animatedToast,
      menuSimpleAfter_noClose]
  · rw [(desktopRelative_reject_iff s auto).mpr hr]; rfl
  · rw [relative_pipeline s auto n h hn]; rfl
  · rw [relative_pipeline s auto n h hn]
    simp [closeMainCount_cons, isCloseMainEv, movingToast, animatedToast,
      relativeAfter_noClose]
  · rw [(desktopWindowMenu_reject_iff s auto).mpr hr]; rfl
  · rw [windowMenu_pipeline s auto n h hn]; rfl
  · rw [windowMenu_pipeline s auto n h hn]
    simp [closeMainCount_cons, isCloseMainEv, movingToast, animatedToast,
      windowMenuAfter_noClose]
  · rw [(desktopDock_reject_iff s auto).mpr hr]; rfl
  · rw [dock_pipeline s auto n h hn]; rfl
  · rw [dock_pipeline s auto n h hn]
    simp [closeMainCount_cons, isCloseMainEv, movingToast, animatedToast,
      dockAfter_noClose]
  · rw [(desktopAssignTo_reject_iff s auto).mpr hr]; rfl
  · rw [assignTo_pipeline s auto n h hn]; rfl
  · rw [assignTo_pipeline s auto n h hn]
    simp [closeMainCount_cons, isCloseMainEv, movingToast, animatedToast,
      assignToAfter_noClose]
  · rw [(desktopSweep_reject_iff s auto).mpr hr]; rfl
  · rw [sweep_pipeline s auto n h hn]; rfl
  · rw [sweep_pipeline s auto n h hn]
    simp [closeMainCount_cons, isCloseMainEv, movingToast, animatedToast,
      sweepAfter_noClose]

/-- Witness for C9 at `desktopKeys "3" (thrown "boom")`. -/
theorem c9_witness :
    jsParseInt "3" = some 3 ∧ ¬ (3 : Int) < 1 ∧
      (desktopKeys "3" (.thrown "boom")).head? = some Event.closeMain ∧
      closeMainCount (desktopKeys "3" (.thrown "boom")) = 1 :=
  ⟨by decide, by decide,
   ((c9_close_main_window "3" (.thrown "boom") 3).1.2 (by decide) (by decide)).1,
   ((c9_close_main_window "3" (.thrown "boom") 3).1.2 (by decide) (by decide)).2⟩

/-- C10: The JXA cursor-drag variant always attempts to remove the temp
script file it wrote: on every valid run the `unlinkSync` attempt is in the
trace whether the automation returned or threw (it sits in the `finally`
block after the `osascript` execution, see the trace shape in the linear
pipeline of the run), and a failure of the deletion itself is swallowed —
the toasts of the run are identical whether the deletion succeeds or
fails. -/
theorem c10_tmpfile_cleanup (s td : String) (now : Nat) (auto : AutoOutcome)
    (n : Int) (ok : Bool) :
    (jsParseInt s = some n → ¬ n < 1 →
      Event.unlinkTmpFile (jxaTmpPath td now) ok ∈ desktopJxa s td now ok auto
        ∧ desktopJxa s td now ok auto =
          movingToast n ::
          Event.writeTmpFile (jxaTmpPath td now) (jxaScriptText n) ::
          Event.runScript (jxaScriptText n) ::
          jxaAfter n (jxaTmpPath td now) ok auto)
    ∧ toastsOf (desktopJxa s td now true auto) =
        toastsOf (desktopJxa s td now false auto) := by
  constructor
  · intro h hn
    refine ⟨?_, jxa_pipeline s td now ok auto n h hn⟩
    rw [jxa_pipeline s td now ok auto n h hn]
    cases auto with
    | ret raw => simp [jxaAfter]
    | thrown m => simp [jxaAfter, jxaCatchEvents]
  · unfold desktopJxa
    cases h : jsParseInt s with
    | none => rfl
    | some n =>
        by_cases hn : n < 1
        · simp [hn]
        · cases auto with
          | ret raw =>
              simp [hn, jxaAfter, toastsOf, isToast, movingToast, animatedToast,
                successToast, failureToast]
          | thrown m =>
              simp [hn, jxaAfter, jxaCatchEvents, toastsOf, isToast, movingToast,
                animatedToast, successToast, failureToast]

/-- Witness for C10 at `desktopJxa "2" "/tmp" 7 false (thrown "boom")`. -/
theorem c10_witness :
    jsParseInt "2" = some 2 ∧ ¬ (2 : Int) < 1 ∧
      Event.unlinkTmpFile (jxaTmpPath "/tmp" 7) false ∈
        desktopJxa "2" "/tmp" 7 false (.thrown "boom") :=
  ⟨by decide, by decide,
   ((c10_tmpfile_cleanup "2" "/tmp" 7 (.thrown "boom") 2 false).1
      (by decide) (by decide)).1⟩
